import Mathlib

/-!
Verification development for the EarthRing procedural-generation server
(`server/internal/procedural`).  The Python sources are shallowly embedded:

* Python `float` values are modelled as exact rationals.  For the building /
  grid / placement pipeline we use an executable unnormalized fraction type
  `Q` (numerator / positive denominator, no gcd reduction) so that concrete
  runs reduce inside `decide`; for the station flare module we use Mathlib's
  `ℚ` and `ℝ` (the cosine blend needs `Real.cos`).  Floating-point rounding is
  abstracted away: arithmetic is exact.
* Python `int` hashing (`hash((a, b, c))` on integer tuples) is embedded
  exactly: CPython's modular integer hash combined with the xxHash-style
  tuple combiner, both deterministic and independent of `PYTHONHASHSEED`
  (string hash randomization does not touch integer tuples).
* `random.Random(seed)` is modelled as an abstract deterministic pseudo-random
  family `σ : ℤ → ℕ → Q`: stream `σ seed` gives the successive unit-interval
  draws of the generator seeded with `seed`, exactly as the spec's SeedDeriver
  contract demands ("any standard deterministic PRNG is acceptable as long as
  stream position is a pure function of the seed and the number of draws").
  Each primitive draw (`random`, `uniform`, `choice`, `randint`, `shuffle`
  step) consumes one stream position and is normalized into `[0,1)`.
* `shapely` polygon primitives (an external geometry library, not part of the
  repository) are modelled as an oracle record `ZoneGeom` carrying the exact
  operations the source calls (`bounds`, `intersects` with a grid cell,
  `contains` of a point, `exterior.distance`); concrete runs instantiate it
  with exact rectangle geometry.
-/

set_option maxRecDepth 8000

namespace EarthRing

/-! ## Exact unnormalized rationals (model of Python floats)

`Q` is a plain numerator/denominator pair.  All constructors used by the
embedding produce positive denominators, and every operation preserves
positivity of the denominator; comparisons cross-multiply. -/

structure Q where
  n : ℤ
  d : ℤ
deriving DecidableEq, Repr

/-- Integer constant as a `Q` value. -/
def qi (k : ℤ) : Q := ⟨k, 1⟩

/-- Decimal constant `a / b` as a `Q` value (used with `b > 0`). -/
def qd (a b : ℤ) : Q := ⟨a, b⟩

def Q.add (a b : Q) : Q := ⟨a.n * b.d + b.n * a.d, a.d * b.d⟩

def Q.sub (a b : Q) : Q := ⟨a.n * b.d - b.n * a.d, a.d * b.d⟩

def Q.mul (a b : Q) : Q := ⟨a.n * b.n, a.d * b.d⟩

/-- Division; the sign is moved into the numerator so the denominator stays
positive.  (Division by zero never occurs on the embedded code paths.) -/
def Q.div (a b : Q) : Q :=
  let n := a.n * b.d
  let d := a.d * b.n
  if d < 0 then ⟨-n, -d⟩ else ⟨n, d⟩

def Q.neg (a : Q) : Q := ⟨-a.n, a.d⟩

/-- Value-level `a < b` (valid when both denominators are positive). -/
def Q.blt (a b : Q) : Bool := decide (a.n * b.d < b.n * a.d)

/-- Value-level `a ≤ b` (valid when both denominators are positive). -/
def Q.ble (a b : Q) : Bool := decide (a.n * b.d ≤ b.n * a.d)

/-- Value-level equality (valid when both denominators are positive). -/
def Q.beq (a b : Q) : Bool := decide (a.n * b.d = b.n * a.d)

def Q.min (a b : Q) : Q := if Q.ble a b then a else b

def Q.max (a b : Q) : Q := if Q.ble a b then b else a

def Q.qabs (a : Q) : Q := ⟨|a.n|, a.d⟩

/-- Mathematical floor (Python `math.floor`) of a `Q` value. -/
def Q.floor (a : Q) : ℤ := Int.fdiv a.n a.d

/-- Python `int(x)`: truncation toward zero. -/
def pyInt (a : Q) : ℤ := Int.tdiv a.n a.d

/-- Fractional part, used to normalize abstract PRNG stream values into
`[0, 1)`; a defensive branch keeps the result well-formed even for ill-formed
stream values (a real `random()` draw always lies in `[0,1)`). -/
def Q.unit (a : Q) : Q := if 0 < a.d then ⟨a.n.emod a.d, a.d⟩ else ⟨0, 1⟩

/-! ## CPython integer and tuple hashing (`seeds.py`, exact embedding)

CPython hashes an `int` to its value modulo the Mersenne prime `2^61 - 1`
(sign preserved, `-1` mapped to `-2`), and hashes a tuple by folding the item
hashes through the xxHash-style combiner below over unsigned 64-bit
arithmetic.  Both are deterministic across runs and platforms (64-bit);
`PYTHONHASHSEED` only affects `str`/`bytes`.  The embedding was validated
against CPython on a battery of integer triples. -/

def pyHashInt (x : ℤ) : ℤ :=
  let m : ℤ := 2 ^ 61 - 1
  let h : ℤ := if 0 ≤ x then x.emod m else -((-x).emod m)
  if h = -1 then -2 else h

/-- xxHash prime 1. -/
def XXPRIME_1 : ℕ := 11400714785074694791

/-- xxHash prime 2. -/
def XXPRIME_2 : ℕ := 14029467366897019727

/-- xxHash prime 5. -/
def XXPRIME_5 : ℕ := 2870177450012600261

/-- Truncation to unsigned 64-bit. -/
def u64 (a : ℕ) : ℕ := a % 2 ^ 64

/-- Rotate a 64-bit value left by 31 bits. -/
def rotl31 (a : ℕ) : ℕ := (a % 2 ^ 33) * 2 ^ 31 + a / 2 ^ 33

/-- One tuple-hash accumulation step: `acc = rotl31(acc + lane * P2) * P1`. -/
def hashStep (acc lane : ℕ) : ℕ := u64 (rotl31 (u64 (acc + lane * XXPRIME_2)) * XXPRIME_1)

/-- Two's-complement reinterpretation of a signed hash as unsigned 64-bit. -/
def toU64 (z : ℤ) : ℕ := (z.emod (2 ^ 64)).toNat

/-- Signed reinterpretation of an unsigned 64-bit value. -/
def toS64 (a : ℕ) : ℤ := if a < 2 ^ 63 then (a : ℤ) else (a : ℤ) - 2 ^ 64

/-- CPython `hash((a, b, c))` for an integer triple. -/
def pyHash3 (a b c : ℤ) : ℤ :=
  let acc := hashStep (hashStep (hashStep XXPRIME_5 (toU64 (pyHashInt a)))
    (toU64 (pyHashInt b))) (toU64 (pyHashInt c))
  let acc2 := u64 (acc + Nat.xor 3 (Nat.xor XXPRIME_5 3527539))
  if acc2 = 2 ^ 64 - 1 then 1546275796 else toS64 acc2

/-! Source: `seeds.py` (`get_chunk_seed`, `get_building_seed`,
`get_window_seed`): `hash((a, b, c)) % (2**31)`, where Python `%` with a
positive modulus is `Int.emod`. -/

def get_chunk_seed (floor chunk_index world_seed : ℤ) : ℤ :=
  (pyHash3 floor chunk_index world_seed).emod (2 ^ 31)

def get_building_seed (chunk_seed cell_x cell_y : ℤ) : ℤ :=
  (pyHash3 chunk_seed cell_x cell_y).emod (2 ^ 31)

def get_window_seed (building_seed window_x window_y : ℤ) : ℤ :=
  (pyHash3 building_seed window_x window_y).emod (2 ^ 31)

/-! ## Abstract deterministic PRNG (`random.Random(seed)` model)

`σ : ℤ → ℕ → Q` is the pseudo-random family: `σ seed n` is the `n`-th raw
draw of the stream seeded with `seed`.  `RNG` carries the stream and the
current position; every primitive operation consumes exactly one position and
normalizes the raw draw into `[0, 1)` via `Q.unit`. -/

structure RNG where
  stream : ℕ → Q
  pos : ℕ

/-- Source: `seeds.py` / `buildings.py` / `grid.py` `seeded_random(seed)`:
a fresh deterministic generator for `seed`, starting at stream position 0. -/
def seeded_random (σ : ℤ → ℕ → Q) (seed : ℤ) : RNG := ⟨σ seed, 0⟩

def RNG.next (r : RNG) : Q × RNG := (Q.unit (r.stream r.pos), ⟨r.stream, r.pos + 1⟩)

/-- Python `rng.random()`: one unit-interval draw. -/
def RNG.random (r : RNG) : Q × RNG := r.next

/-- Python `rng.uniform(a, b) = a + (b - a) * random()`. -/
def RNG.uniform (a b : Q) (r : RNG) : Q × RNG :=
  let p := r.next
  (Q.add a (Q.mul (Q.sub b a) p.1), p.2)

/-- Index selected by a unit draw among `len` alternatives. -/
def idxOf (u : Q) (len : ℕ) : ℕ := (Q.floor (Q.mul u (qi len))).toNat

/-- Python `rng.choice(xs)` on a list of numbers (one draw). -/
def RNG.choice (xs : List Q) (r : RNG) : Q × RNG :=
  let p := r.next
  (xs.getD (idxOf p.1 xs.length) (qi 0), p.2)

/-- Python `rng.choice(xs)` on a list of strings (one draw). -/
def RNG.choiceStr (xs : List String) (r : RNG) : String × RNG :=
  let p := r.next
  (xs.getD (idxOf p.1 xs.length) "", p.2)

/-- Python `rng.randint(a, b)`: uniform integer in `[a, b]` (one draw). -/
def RNG.randint (a b : ℤ) (r : RNG) : ℤ × RNG :=
  let p := r.next
  (a + Q.floor (Q.mul p.1 (qi (b - a + 1))), p.2)

/-- Swap two positions of a list (no-op when an index is out of range,
matching the always-in-range Python swap). -/
def listSwap {α : Type} (xs : List α) (i j : ℕ) : List α :=
  if h : i < xs.length ∧ j < xs.length then
    (xs.set i (xs.get ⟨j, h.2⟩)).set j (xs.get ⟨i, h.1⟩)
  else xs

/-- Fisher–Yates backward pass (the algorithm of Python `rng.shuffle`):
for `i = n-1, …, 1`, draw `j ∈ [0, i]` and swap positions `i` and `j`. -/
def shuffleAux {α : Type} (xs : List α) (i : ℕ) (r : RNG) : List α × RNG :=
  match i with
  | 0 => (xs, r)
  | i + 1 =>
    let p := r.next
    let j := idxOf p.1 (i + 2)
    shuffleAux (listSwap xs (i + 1) j) i p.2

/-- Python `rng.shuffle(xs)` (in-place shuffle, modelled functionally). -/
def RNG.shuffle {α : Type} (xs : List α) (r : RNG) : List α × RNG :=
  shuffleAux xs (xs.length - 1) r

/-! ## Stations and the flare model (`stations.py`)

This module is embedded over Mathlib's `ℚ` (distances) and `ℝ` (the cosine
blend).  Python `%` on floats with a positive modulus is floor-style:
`a - b * ⌊a / b⌋`. -/

/-- Source: `stations.py` `RING_CIRCUMFERENCE`. -/
def RING_CIRCUMFERENCE : ℚ := 264000000

/-- Source: `stations.py` `BASE_WIDTH`. -/
def BASE_WIDTH : ℚ := 400

structure StationType where
  name : String
  max_flare_radius : ℚ
  flare_length : ℚ
  max_levels : ℕ
deriving DecidableEq, Repr

structure Station where
  position : ℚ
  station_type : StationType
deriving DecidableEq, Repr

/-- Source: `stations.py` `PILLAR_ELEVATOR_HUB`. -/
def PILLAR_ELEVATOR_HUB : StationType :=
  ⟨"pillar_elevator", 12500, 50000, 15⟩

/-- Source: `stations.py` `PILLAR_HUB_POSITIONS` (12 hubs, 22 000 km apart). -/
def PILLAR_HUB_POSITIONS : List ℚ :=
  [0, 22000000, 44000000, 66000000, 88000000, 110000000, 132000000,
   154000000, 176000000, 198000000, 220000000, 242000000]

/-- Source: `stations.py` `PILLAR_STATIONS`. -/
def PILLAR_STATIONS : List Station :=
  PILLAR_HUB_POSITIONS.map (fun p => ⟨p, PILLAR_ELEVATOR_HUB⟩)

/-- Python float `a % b` for `b > 0` (floor-style remainder). -/
def pyModQ (a b : ℚ) : ℚ := a - b * ⌊a / b⌋

/-- Source: `stations.py` `wrap_position`:
`((position % RING) + RING) % RING`. -/
def wrap_position (p : ℚ) : ℚ :=
  pyModQ (pyModQ p RING_CIRCUMFERENCE + RING_CIRCUMFERENCE) RING_CIRCUMFERENCE

/-- Source: `stations.py` `distance_with_wrapping`: shortest ring distance. -/
def distance_with_wrapping (p1 p2 : ℚ) : ℚ :=
  let w1 := wrap_position p1
  let w2 := wrap_position p2
  let direct := |w2 - w1|
  min direct (RING_CIRCUMFERENCE - direct)

/-- Acceptance condition of one `find_nearest_station` loop iteration. -/
def nearerThan (acc : Option (Station × ℚ)) (d : ℚ) : Bool :=
  match acc with
  | none => true
  | some p => decide (d < p.2)

/-- One iteration of the `find_nearest_station` loop. -/
def findStep (wp : ℚ) (acc : Option (Station × ℚ)) (st : Station) : Option (Station × ℚ) :=
  let d := distance_with_wrapping wp st.position
  let fr := st.station_type.flare_length / 2
  if decide (d ≤ fr) && nearerThan acc d then some (st, d) else acc

/-- Source: `stations.py` `find_nearest_station`: nearest station within its
flare range, or `none`. -/
def find_nearest_station (ring_position : ℚ) : Option (Station × ℚ) :=
  let wp := wrap_position ring_position
  PILLAR_STATIONS.foldl (findStep wp) none

/-- Source: `stations.py` `calculate_flare_width`: base 400 m, flat plateau of
radius 2 500 m around pillar hubs, then a cosine taper down to the base width
at the edge of the flare range.  (The source's test `station_type is
PILLAR_ELEVATOR_HUB` — object identity against the module constant every
station carries — is modelled as equality with that constant.) -/
noncomputable def flare_width_of_station (st : Station) (d : ℚ) : ℝ :=
  let fr : ℚ := st.station_type.flare_length / 2
  if d ≤ fr then
    let plateau : ℚ := if st.station_type = PILLAR_ELEVATOR_HUB then 2500 else 0
    if 0 < plateau ∧ d ≤ plateau then ((st.station_type.max_flare_radius * 2 : ℚ) : ℝ)
    else
      let effective_range : ℚ := fr - plateau
      let adjusted : ℚ := max (d - plateau) 0
      let nd : ℚ := if effective_range ≤ 0 then 1 else adjusted / effective_range
      let contribution : ℝ := (1 + Real.cos (Real.pi * (nd : ℝ))) / 2
      (BASE_WIDTH : ℝ) + ((st.station_type.max_flare_radius * 2 - BASE_WIDTH : ℚ) : ℝ) * contribution
  else (BASE_WIDTH : ℝ)

noncomputable def calculate_flare_width (ring_position : ℚ) : ℝ :=
  match find_nearest_station ring_position with
  | none => (BASE_WIDTH : ℝ)
  | some (st, d) => flare_width_of_station st d

/-! ## Building generation (`buildings.py`)

Embedded over `Q`.  Python string normalization (`.lower().strip()`) is
embedded for ASCII (the only characters zone-type strings use). -/

def lowerChar (c : Char) : Char :=
  if 'A' ≤ c ∧ c ≤ 'Z' then Char.ofNat (c.toNat + 32) else c

/-- Python `str.lower()` (ASCII range). -/
def pyLower (s : String) : String := ⟨s.data.map lowerChar⟩

def isPySpace (c : Char) : Bool := c = ' ' ∨ c = '\t' ∨ c = '\n' ∨ c = '\r'

/-- Python `str.strip()`. -/
def pyStrip (s : String) : String :=
  ⟨((s.data.dropWhile isPySpace).reverse.dropWhile isPySpace).reverse⟩

/-- Source: `buildings.py` constants. -/
def GRID_CELL_SIZE : Q := qi 50

def MIN_BUILDING_WIDTH : Q := qi 10

def MAX_BUILDING_WIDTH : Q := qi 80

def MIN_BUILDING_DEPTH : Q := qi 10

def MAX_BUILDING_DEPTH : Q := qi 80

def FLOOR_HEIGHT : Q := qi 4

def MAX_FLOORS : ℕ := 5

def WINDOW_WIDTH : Q := qd 5 2

def WINDOW_SPACING : Q := qd 1 2

/-- Source: `buildings.py` `WINDOW_TYPES` — `(height, bottom, top)` per type. -/
def WINDOW_TYPES (name : String) : Q × Q × Q :=
  if name = "full_height" then (qi 3, qi 1, qi 4)
  else if name = "standard" then (qi 1, qi 2, qi 3)
  else (qd 1 2, qd 13 4, qd 15 4)

structure Window where
  posx : Q
  posy : Q
  posz : Q
  sizew : Q
  sizeh : Q
  facade : String
  wtype : String
deriving DecidableEq, Repr

structure Door where
  x : Q
  y : Q
  width : Q
  height : Q
  dtype : String
deriving DecidableEq, Repr

structure GarageDoor where
  facade : String
  x : Q
  y : Q
  width : Q
  height : Q
  gtype : String
deriving DecidableEq, Repr

/-- The Python `doors` dict: facade → door(s), in insertion order. -/
abbrev Doors := List (String × List Door)

/-- Base dimensions and subtype before importance scaling. -/
structure DimResult where
  width : Q
  depth : Q
  height : Q
  subtype : String
deriving DecidableEq, Repr

/-- Residential branch of `_get_building_dimensions` (also reused verbatim by
the mixed-use branch of the source). -/
def dimsResidential (rng : RNG) : DimResult × RNG :=
  let p := rng.random
  if Q.blt p.1 (qd 6 10) then
    let s := RNG.choiceStr ["apartment", "campus"] p.2
    let w := RNG.uniform (qi 20) (qi 40) s.2
    let d := RNG.uniform (qi 20) (qi 40) w.2
    let h := RNG.choice [qi 12, qi 16, qi 20] d.2
    (⟨w.1, d.1, h.1, s.1⟩, h.2)
  else
    let w := RNG.uniform (qi 10) (qi 18) p.2
    let d := RNG.uniform (qi 10) (qi 18) w.2
    let h := RNG.choice [qi 8, qi 12] d.2
    (⟨w.1, d.1, h.1, "house"⟩, h.2)

/-- Commercial branch of `_get_building_dimensions`. -/
def dimsCommercial (rng : RNG) : DimResult × RNG :=
  let w := RNG.uniform (qi 15) (qi 35) rng
  let d := RNG.uniform (qi 15) (qi 35) w.2
  (⟨w.1, d.1, qi 20, "retail"⟩, d.2)

/-- Industrial branch of `_get_building_dimensions` (after the subtype
pre-draw decided warehouse vs factory). -/
def dimsIndustrial (isWarehouse : Bool) (rng : RNG) : DimResult × RNG :=
  if isWarehouse then
    let p := rng.random
    if Q.blt p.1 (qd 8 10) then
      let h := RNG.choice [qi 5, qi 10] p.2
      let w := RNG.uniform (qi 40) (qi 80) h.2
      let d := RNG.uniform (qi 40) (qi 80) w.2
      (⟨w.1, d.1, h.1, "warehouse"⟩, d.2)
    else
      let w := RNG.uniform (qi 40) (qi 80) p.2
      let d := RNG.uniform (qi 40) (qi 80) w.2
      (⟨w.1, d.1, qi 12, "warehouse"⟩, d.2)
  else
    let w := RNG.uniform (qi 30) (qi 65) rng
    let d := RNG.uniform (qi 30) (qi 65) w.2
    let p := d.2.random
    if Q.blt p.1 (qd 7 10) then
      let h := RNG.choice [qi 5, qi 8, qi 10, qi 12] p.2
      (⟨w.1, d.1, h.1, "factory"⟩, h.2)
    else
      let h := RNG.choice [qi 16, qi 20] p.2
      (⟨w.1, d.1, h.1, "factory"⟩, h.2)

/-- Mixed-use branch of `_get_building_dimensions`. -/
def dimsMixedUse (rng : RNG) : DimResult × RNG :=
  let btc := rng.random
  if Q.blt btc.1 (qd 1 2) then
    dimsResidential btc.2
  else if Q.blt btc.1 (qd 8 10) then
    dimsCommercial btc.2
  else
    let p := btc.2.random
    if Q.blt p.1 (qd 6 10) then
      let w := RNG.uniform (qi 40) (qi 70) p.2
      let d := RNG.uniform (qi 40) (qi 70) w.2
      let h := RNG.choice [qi 5, qi 10] d.2
      (⟨w.1, d.1, h.1, "warehouse"⟩, h.2)
    else
      let w := RNG.uniform (qi 30) (qi 60) p.2
      let d := RNG.uniform (qi 30) (qi 60) w.2
      let h := RNG.choice [qi 8, qi 10, qi 12] d.2
      (⟨w.1, d.1, h.1, "factory"⟩, h.2)

/-- Agricultural branch of `_get_building_dimensions` (after the subtype
pre-draw decided residence vs agri-industrial). -/
def dimsAgricultural (isResidence : Bool) (rng : RNG) : DimResult × RNG :=
  if isResidence then
    let w := RNG.uniform (qi 10) (qi 18) rng
    let d := RNG.uniform (qi 10) (qi 18) w.2
    let h := RNG.choice [qi 8, qi 12] d.2
    (⟨w.1, d.1, h.1, "house"⟩, h.2)
  else
    let p := rng.random
    if Q.blt p.1 (qd 6 10) then
      let w := RNG.uniform (qi 12) (qi 25) p.2
      let d := RNG.uniform (qi 12) (qi 25) w.2
      let h := RNG.choice [qi 5, qi 8, qi 10] d.2
      (⟨w.1, d.1, h.1, "barn"⟩, h.2)
    else
      let w := RNG.uniform (qi 15) (qi 30) p.2
      let d := RNG.uniform (qi 15) (qi 30) w.2
      let h := RNG.choice [qi 5, qi 8, qi 10] d.2
      (⟨w.1, d.1, h.1, "warehouse"⟩, h.2)

/-- Park branch of `_get_building_dimensions`. -/
def dimsPark (rng : RNG) : DimResult × RNG :=
  let w := RNG.uniform (qi 5) (qi 15) rng
  let d := RNG.uniform (qi 5) (qi 15) w.2
  let h := RNG.choice [qi 4, qi 8] d.2
  (⟨w.1, d.1, h.1, "park_structure"⟩, h.2)

/-- Default branch of `_get_building_dimensions` (restricted / unknown zone
types): 1–3 floors on the 4 m grid, subtype is the zone type itself. -/
def dimsDefault (zt : String) (rng : RNG) : DimResult × RNG :=
  let w := RNG.uniform (qi 10) (qi 30) rng
  let d := RNG.uniform (qi 10) (qi 30) w.2
  let nf := RNG.choice [qi 1, qi 2, qi 3] d.2
  (⟨w.1, d.1, Q.mul nf.1 FLOOR_HEIGHT, zt⟩, nf.2)

/-- The branch structure of `_get_building_dimensions` before the importance
scale is applied: subtype pre-draws for industrial / agricultural zones, then
per-zone dimension draws, exactly in the source's draw order. -/
def dimsBase (zt : String) (rng : RNG) : DimResult × RNG :=
  if zt = "industrial" then
    let p := rng.random
    dimsIndustrial (Q.blt p.1 (qd 6 10)) p.2
  else if zt = "agricultural" then
    let p := rng.random
    dimsAgricultural (Q.blt p.1 (qd 7 10)) p.2
  else if zt = "residential" then dimsResidential rng
  else if zt = "commercial" then dimsCommercial rng
  else if zt = "mixed_use" ∨ zt = "mixed-use" then dimsMixedUse rng
  else if zt = "park" then dimsPark rng
  else dimsDefault zt rng

/-- Source: `buildings.py` `_get_building_dimensions`: base dimensions per
zone type, then `scale = 0.7 + importance * 0.6` applied to width and depth
only, clamped to the global bounds; the height is never scaled. -/
def _get_building_dimensions (zone_type : String) (zone_importance : Q) (rng : RNG) :
    DimResult × RNG :=
  let zt := pyStrip (pyLower zone_type)
  let r := dimsBase zt rng
  let scale := Q.add (qd 7 10) (Q.mul zone_importance (qd 6 10))
  let width := Q.max MIN_BUILDING_WIDTH (Q.min MAX_BUILDING_WIDTH (Q.mul r.1.width scale))
  let depth := Q.max MIN_BUILDING_DEPTH (Q.min MAX_BUILDING_DEPTH (Q.mul r.1.depth scale))
  (⟨width, depth, r.1.height, r.1.subtype⟩, r.2)

/-- Branch structure of `_get_building_dimensions_with_subtype` before
scaling (agricultural overrides, residential/commercial/industrial overrides,
and the generic fallbacks of the source). -/
def dimsBaseOverride (zt ov : String) (rng : RNG) : DimResult × RNG :=
  if zt = "agricultural" then
    if ov = "house" then
      let w := RNG.uniform (qi 10) (qi 18) rng
      let d := RNG.uniform (qi 10) (qi 18) w.2
      let h := RNG.choice [qi 8, qi 12] d.2
      (⟨w.1, d.1, h.1, "house"⟩, h.2)
    else if ov = "barn" then
      let w := RNG.uniform (qi 12) (qi 25) rng
      let d := RNG.uniform (qi 12) (qi 25) w.2
      let h := RNG.choice [qi 5, qi 8, qi 10] d.2
      (⟨w.1, d.1, h.1, "barn"⟩, h.2)
    else if ov = "small_industrial" ∨ ov = "warehouse" then
      let w := RNG.uniform (qi 15) (qi 30) rng
      let d := RNG.uniform (qi 15) (qi 30) w.2
      let h := RNG.choice [qi 5, qi 8, qi 10] d.2
      (⟨w.1, d.1, h.1, "warehouse"⟩, h.2)
    else
      let w := RNG.uniform (qi 10) (qi 18) rng
      let d := RNG.uniform (qi 10) (qi 18) w.2
      let h := RNG.choice [qi 8, qi 12] d.2
      (⟨w.1, d.1, h.1, "house"⟩, h.2)
  else if zt = "residential" then
    if ov = "apartment" ∨ ov = "campus" then
      let w := RNG.uniform (qi 20) (qi 40) rng
      let d := RNG.uniform (qi 20) (qi 40) w.2
      let h := RNG.choice [qi 12, qi 16, qi 20] d.2
      (⟨w.1, d.1, h.1, ov⟩, h.2)
    else if ov = "house" then
      let w := RNG.uniform (qi 10) (qi 18) rng
      let d := RNG.uniform (qi 10) (qi 18) w.2
      let h := RNG.choice [qi 8, qi 12] d.2
      (⟨w.1, d.1, h.1, ov⟩, h.2)
    else
      -- no residential case matched: the source keeps the defaults
      -- (15, 15, 8) and the override subtype
      (⟨qi 15, qi 15, qi 8, ov⟩, rng)
  else if zt = "commercial" then
    let w := RNG.uniform (qi 15) (qi 35) rng
    let d := RNG.uniform (qi 15) (qi 35) w.2
    (⟨w.1, d.1, qi 20, "retail"⟩, d.2)
  else if zt = "industrial" then
    if ov = "warehouse" then
      let p := rng.random
      if Q.blt p.1 (qd 8 10) then
        let h := RNG.choice [qi 5, qi 10] p.2
        let w := RNG.uniform (qi 40) (qi 80) h.2
        let d := RNG.uniform (qi 40) (qi 80) w.2
        (⟨w.1, d.1, h.1, ov⟩, d.2)
      else
        let w := RNG.uniform (qi 40) (qi 80) p.2
        let d := RNG.uniform (qi 40) (qi 80) w.2
        (⟨w.1, d.1, qi 12, ov⟩, d.2)
    else if ov = "factory" then
      let p := rng.random
      if Q.blt p.1 (qd 7 10) then
        let h := RNG.choice [qi 5, qi 8, qi 10, qi 12] p.2
        let w := RNG.uniform (qi 30) (qi 65) h.2
        let d := RNG.uniform (qi 30) (qi 65) w.2
        (⟨w.1, d.1, h.1, ov⟩, d.2)
      else
        let h := RNG.choice [qi 16, qi 20] p.2
        let w := RNG.uniform (qi 30) (qi 65) h.2
        let d := RNG.uniform (qi 30) (qi 65) w.2
        (⟨w.1, d.1, h.1, ov⟩, d.2)
    else
      let w := RNG.uniform (qi 30) (qi 60) rng
      let d := RNG.uniform (qi 30) (qi 60) w.2
      let h := RNG.choice [qi 5, qi 10, qi 12] d.2
      (⟨w.1, d.1, h.1, ov⟩, h.2)
  else
    let w := RNG.uniform (qi 10) (qi 30) rng
    let d := RNG.uniform (qi 10) (qi 30) w.2
    let h := RNG.choice [qi 8, qi 12, qi 16] d.2
    (⟨w.1, d.1, h.1, ov⟩, h.2)

/-- Source: `buildings.py` `_get_building_dimensions_with_subtype`. -/
def _get_building_dimensions_with_subtype (zone_type : String) (zone_importance : Q)
    (rng : RNG) (building_subtype_override : String) : DimResult × RNG :=
  let zt := pyStrip (pyLower zone_type)
  let ov := pyStrip (pyLower building_subtype_override)
  let r := dimsBaseOverride zt ov rng
  let scale := Q.add (qd 7 10) (Q.mul zone_importance (qd 6 10))
  let width := Q.max MIN_BUILDING_WIDTH (Q.min MAX_BUILDING_WIDTH (Q.mul r.1.width scale))
  let depth := Q.max MIN_BUILDING_DEPTH (Q.min MAX_BUILDING_DEPTH (Q.mul r.1.depth scale))
  (⟨width, depth, r.1.height, r.1.subtype⟩, r.2)

/-- Linear-search integer square root (kernel-friendly). -/
def natSqrtAux (m : ℕ) : ℕ → ℕ
  | 0 => 0
  | k + 1 => if (k + 1) * (k + 1) ≤ m then k + 1 else natSqrtAux m k

def natSqrt (m : ℕ) : ℕ := natSqrtAux m m

/-- Python `int(k * math.sqrt(dens))` for a non-negative integer `k`, computed
exactly: `⌊k·√d⌋ = ⌊√(k²·d)⌋ = isqrt(⌊k²·d⌋)`. -/
def intMulSqrt (k : ℕ) (dens : Q) : ℤ :=
  Int.ofNat (natSqrt (Int.toNat (Q.floor (Q.mul (qi (k * k)) dens))))

/-- Window density and type preferences per building subtype (the source's
`prefer_ceiling` flag is `False` in every branch and is therefore omitted:
ceiling windows are still drawn in each probability profile below). -/
def windowDensityPrefs (building_subtype : String) : Q × Bool × Bool :=
  if building_subtype = "warehouse" then (qd 1 10, false, false)
  else if building_subtype = "factory" then (qd 2 10, false, true)
  else if building_subtype = "barn" ∨ building_subtype = "agri_industrial" then
    (qd 2 10, false, true)
  else if building_subtype = "retail" then (qd 3 4, true, false)
  else if building_subtype = "apartment" ∨ building_subtype = "campus"
      ∨ building_subtype = "house" ∨ building_subtype = "residence" then
    (if building_subtype = "house" then qd 6 10 else qd 7 10, false, true)
  else if building_subtype = "park_structure" then (qd 4 10, false, true)
  else (qd 65 100, false, true)

/-- Per-floor window-type draws: three independent decisions whose
probabilities depend on the subtype's preference flags. -/
def windowTypeDraws (preferFull preferStd : Bool) (rng : RNG) : (Bool × Bool × Bool) × RNG :=
  let p1 := rng.random
  let p2 := p1.2.random
  let p3 := p2.2.random
  if preferFull then
    ((Q.blt p1.1 (qd 85 100), Q.blt p2.1 (qd 15 100), Q.blt p3.1 (qd 10 100)), p3.2)
  else if preferStd then
    ((Q.blt p1.1 (qd 20 100), Q.blt p2.1 (qd 85 100), Q.blt p3.1 (qd 25 100)), p3.2)
  else
    ((Q.blt p1.1 (qd 10 100), Q.blt p2.1 (qd 30 100), Q.blt p3.1 (qd 10 100)), p3.2)

/-- One window record of a given type at a slot position. -/
def mkWindow (facade : String) (ox oy : Q) (floorBase : Q) (tname : String) : Window :=
  let t := WINDOW_TYPES tname
  ⟨ox, oy, Q.add floorBase (Q.div (Q.add t.2.1 t.2.2) (qi 2)), WINDOW_WIDTH, t.1, facade, tname⟩

/-- Source: the `generate_windows_for_facade` inner function of
`_generate_window_grid`: slot layout from the facade width, corner trim and
density, then per floor three type draws and one skip draw per slot. -/
def generate_windows_for_facade (facade : String) (facadeWidth : Q) (fox foy foz : Q)
    (numFloors : ℕ) (height trim density : Q) (preferFull preferStd : Bool)
    (rng : RNG) : List Window × RNG :=
  let usable := Q.sub facadeWidth (Q.mul trim (qi 2))
  let avail := Q.sub usable (Q.mul WINDOW_SPACING (qi 2))
  let n1 : ℤ := max 1 (pyInt (Q.div avail (Q.add WINDOW_WIDTH WINDOW_SPACING)))
  let wpf : ℕ := (max 1 (intMulSqrt n1.toNat density)).toNat
  let spacing := if 1 < wpf then Q.div avail (qi (max 1 ((wpf : ℤ) - 1))) else qi 0
  let mn := Q.add (Q.add (Q.neg (Q.div facadeWidth (qi 2))) trim) (Q.div WINDOW_WIDTH (qi 2))
  let mx := Q.sub (Q.sub (Q.div facadeWidth (qi 2)) trim) (Q.div WINDOW_WIDTH (qi 2))
  (List.range numFloors).foldl (fun acc fl =>
    let floorBase := Q.add (Q.neg (Q.div height (qi 2))) (Q.mul (qi fl) FLOOR_HEIGHT)
    let td := windowTypeDraws preferFull preferStd acc.2
    let useFull := td.1.1
    let useStd := td.1.2.1
    let useCeil := td.1.2.2
    (List.range wpf).foldl (fun acc2 i =>
      let p := acc2.2.random
      if Q.blt p.1 (qd 1 10) then (acc2.1, p.2)
      else
        let offsetLocal :=
          if 1 < wpf then
            Q.min (Q.add mn (Q.mul (qi i) spacing)) (Q.sub mx (Q.div WINDOW_WIDTH (qi 2)))
          else Q.div (Q.add mn mx) (qi 2)
        let ox := if facade = "front" ∨ facade = "back" then offsetLocal else fox
        let oy := if facade = "front" ∨ facade = "back" then foy else offsetLocal
        let ws1 := if useFull then [mkWindow facade ox oy floorBase "full_height"] else []
        let ws2 := if useStd then [mkWindow facade ox oy floorBase "standard"] else []
        let ws3 := if useCeil then [mkWindow facade ox oy floorBase "ceiling"] else []
        (acc2.1 ++ ws1 ++ ws2 ++ ws3, p.2)) (acc.1, td.2)) ([], rng)

/-- Source: `buildings.py` `_generate_window_grid`: a fresh generator seeded
with the building seed, then windows for the four facades in order. -/
def _generate_window_grid (σ : ℤ → ℕ → Q) (width depth height : Q) (building_seed : ℤ)
    (building_subtype : String) (corner_trim_width : Q) : List Window :=
  let rng := seeded_random σ building_seed
  let nfi := pyInt (Q.div height FLOOR_HEIGHT)
  if nfi < 1 then []
  else
    let nf := nfi.toNat
    let dp := windowDensityPrefs building_subtype
    let dens := dp.1
    let pf := dp.2.1
    let ps := dp.2.2
    let f1 := generate_windows_for_facade "front" width (qi 0) (Q.div depth (qi 2)) (qi 0)
      nf height corner_trim_width dens pf ps rng
    let f2 := generate_windows_for_facade "back" width (qi 0) (Q.neg (Q.div depth (qi 2))) (qi 0)
      nf height corner_trim_width dens pf ps f1.2
    let f3 := generate_windows_for_facade "left" depth (Q.neg (Q.div width (qi 2))) (qi 0) (qi 0)
      nf height corner_trim_width dens pf ps f2.2
    let f4 := generate_windows_for_facade "right" depth (Q.div width (qi 2)) (qi 0) (qi 0)
      nf height corner_trim_width dens pf ps f3.2
    f1.1 ++ f2.1 ++ f3.1 ++ f4.1

/-- The `door_overlaps_window` inner predicate of `_generate_doors`:
axis-aligned rectangle overlap in facade-local coordinates, with a 0.15 m
safety margin. -/
def door_overlaps_window (windows : List Window) (door_x door_y door_w door_h : Q)
    (facade : String) : Bool :=
  windows.any (fun w =>
    if w.facade != facade then false
    else
      let margin := qd 15 100
      let winx := if facade = "front" ∨ facade = "back" then w.posx else w.posy
      let winLeft := Q.sub winx (Q.div w.sizew (qi 2))
      let winRight := Q.add winx (Q.div w.sizew (qi 2))
      let winBottom := Q.sub w.posz (Q.div w.sizeh (qi 2))
      let winTop := Q.add w.posz (Q.div w.sizeh (qi 2))
      let doorLeft := Q.sub door_x (Q.div door_w (qi 2))
      let doorRight := Q.add door_x (Q.div door_w (qi 2))
      let doorBottom := Q.sub door_y (Q.div door_h (qi 2))
      let doorTop := Q.add door_y (Q.div door_h (qi 2))
      !(Q.blt doorRight (Q.sub winLeft margin) || Q.blt (Q.add winRight margin) doorLeft
        || Q.blt doorTop (Q.sub winBottom margin) || Q.blt (Q.add winTop margin) doorBottom))

/-- The random-attempt loop of `find_door_position` (up to `fuel` draws,
stopping at the first non-overlapping position). -/
def findDoorAttempts (windows : List Window) (facade : String) (mnx avail : Q)
    (door_w door_h door_y : Q) : ℕ → RNG → Option Q × RNG
  | 0, r => (none, r)
  | fuel + 1, r =>
    let p := r.random
    let dx := Q.add mnx (Q.mul p.1 avail)
    if door_overlaps_window windows dx door_y door_w door_h facade then
      findDoorAttempts windows facade mnx avail door_w door_h door_y fuel p.2
    else (some dx, p.2)

/-- The `find_door_position` inner function of `_generate_doors`: 50 random
attempts, then the fixed edge-biased fractions 0.1 / 0.9 / 0.25 / 0.75 and
0.05 / 0.95 (tried in that order), and finally the unconditional fallback at
5 % of the available width — every control path returns a position, so the
source's `None` check at each call site can never fire. -/
def find_door_position (windows : List Window) (facade : String) (facade_width : Q)
    (corner_trim_width door_w door_h door_y : Q) (rng : RNG) : Q × RNG :=
  let mnx := Q.add (Q.add (Q.neg (Q.div facade_width (qi 2))) corner_trim_width)
    (Q.div door_w (qi 2))
  let mxx := Q.sub (Q.sub (Q.div facade_width (qi 2)) corner_trim_width) (Q.div door_w (qi 2))
  let avail := Q.sub mxx mnx
  let att := findDoorAttempts windows facade mnx avail door_w door_h door_y 50 rng
  match att with
  | (some dx, r2) => (dx, r2)
  | (none, r2) =>
    let tryAt := fun (frac : Q) =>
      let pos := Q.add mnx (Q.mul avail frac)
      if door_overlaps_window windows pos door_y door_w door_h facade then none else some pos
    match List.findSome? tryAt
        [qd 1 10, qd 9 10, qd 25 100, qd 75 100, qd 5 100, qd 95 100] with
    | some pos => (pos, r2)
    | none => (Q.add mnx (Q.mul avail (qd 5 100)), r2)

def doorsHasFacade (ds : Doors) (fac : String) : Bool := ds.any (fun p => p.1 == fac)

/-- Python `doors[facade] = door` (assignment: replace or append). -/
def setDoor (ds : Doors) (fac : String) (d : Door) : Doors :=
  if doorsHasFacade ds fac then ds.map (fun p => if p.1 == fac then (p.1, [d]) else p)
  else ds ++ [(fac, [d])]

/-- The utility-door merge step of `generate_building`: append to the
facade's door list, or create the entry. -/
def appendDoor (ds : Doors) (fac : String) (d : Door) : Doors :=
  if doorsHasFacade ds fac then ds.map (fun p => if p.1 == fac then (p.1, p.2 ++ [d]) else p)
  else ds ++ [(fac, [d])]

def ALL_FACADES : List String := ["front", "back", "left", "right"]

/-- Facade width: front/back span the building width, left/right its depth. -/
def facadeWidthOf (facade : String) (width depth : Q) : Q :=
  if facade = "front" ∨ facade = "back" then width else depth

/-- One secondary-door placement (find a position, insert with the given
type) — the body shared by every secondary-door branch of the source. -/
def placeSecondary (windows : List Window) (width depth trim dw dh dyp : Q)
    (facade : String) (dtype : String) (acc : Doors × RNG) : Doors × RNG :=
  let fw := facadeWidthOf facade width depth
  let r := find_door_position windows facade fw trim dw dh dyp acc.2
  (setDoor acc.1 facade ⟨r.1, dyp, dw, dh, dtype⟩, r.2)

/-- Source: `buildings.py` `_generate_doors`: the main door on the facade
facing the ring centerline, then subtype-specific secondary doors.  (At this
call site the source leaves `corner_trim_width` at its default `0.1`.) -/
def _generate_doors (width depth height : Q) (building_seed : ℤ) (building_subtype : String)
    (main_door_facade : String) (rng : RNG) (windows : List Window)
    (corner_trim_width : Q) : Doors × RNG :=
  let dw := qd 9 10
  let dh := qd 21 10
  let foundation := Q.min (qd 1 2) (Q.mul height (qd 1 10))
  let dyp := Q.add (Q.add (Q.neg (Q.div height (qi 2))) foundation) (Q.div dh (qi 2))
  let fw0 := facadeWidthOf main_door_facade width depth
  let m := find_door_position windows main_door_facade fw0 corner_trim_width dw dh dyp rng
  let doors0 : Doors := [(main_door_facade, [⟨m.1, dyp, dw, dh, "main"⟩])]
  if building_subtype = "retail" then
    ALL_FACADES.foldl (fun acc f =>
      if f = main_door_facade then acc
      else placeSecondary windows width depth corner_trim_width dw dh dyp f "secondary" acc)
      (doors0, m.2)
  else if building_subtype = "apartment" ∨ building_subtype = "campus" then
    let n := RNG.randint 2 3 m.2
    let other := ALL_FACADES.filter (fun f => f != main_door_facade)
    let sh := RNG.shuffle other n.2
    (sh.1.take (min n.1.toNat sh.1.length)).foldl (fun acc f =>
      placeSecondary windows width depth corner_trim_width dw dh dyp f "secondary" acc)
      (doors0, sh.2)
  else if building_subtype = "house" then
    let p := m.2.random
    if Q.blt p.1 (qd 2 10) then
      let other := ALL_FACADES.filter (fun f => f != main_door_facade)
      let ch := RNG.choiceStr other p.2
      placeSecondary windows width depth corner_trim_width dw dh dyp ch.1 "secondary"
        (doors0, ch.2)
    else (doors0, p.2)
  else if building_subtype = "residence" then
    let p := m.2.random
    if Q.blt p.1 (qd 4 10) then
      let other := ALL_FACADES.filter (fun f => f != main_door_facade)
      let ch := RNG.choiceStr other p.2
      placeSecondary windows width depth corner_trim_width dw dh dyp ch.1 "secondary"
        (doors0, ch.2)
    else (doors0, p.2)
  else if building_subtype = "warehouse" ∨ building_subtype = "factory" then
    (["front", "back"]).foldl (fun acc f =>
      if doorsHasFacade acc.1 f then acc
      else
        let fw := facadeWidthOf f width depth
        let r := find_door_position windows f fw corner_trim_width dw dh dyp acc.2
        let dt := if f = main_door_facade then "main" else "secondary"
        (setDoor acc.1 f ⟨r.1, dyp, dw, dh, dt⟩, r.2)) (doors0, m.2)
  else (doors0, m.2)

/-- Lookup of a facade's door list (`doors[facade]`, empty when absent). -/
def doorsGet (ds : Doors) (fac : String) : List Door :=
  match ds.find? (fun p => p.1 == fac) with
  | some p => p.2
  | none => []

/-- The `utility_door_overlaps_window` inner predicate of
`_generate_garage_doors` (0.9 × 2.1 utility door vs windows, 0.15 m margin).
The `facade_width` parameter is carried but, as in the source, unused. -/
def utility_door_overlaps_window (windows : List Window) (door_x door_y : Q)
    (facade : String) (facade_width : Q) : Bool :=
  door_overlaps_window windows door_x door_y (qd 9 10) (qd 21 10) facade

/-- The `garage_door_overlaps` / `garage_door_overlaps_simple` inner
predicate: candidate garage rectangle inflated by a 0.3 m margin against
windows (both axes), doors on the facade (horizontal, margin applied again),
and previously placed garage doors (horizontal, margin applied again). -/
def garage_door_overlaps (windows : List Window) (doors : Doors)
    (garages : List GarageDoor) (facade : String) (gw gh gy gx : Q) : Bool :=
  let margin := qd 3 10
  let gl := Q.sub (Q.sub gx (Q.div gw (qi 2))) margin
  let gr := Q.add (Q.add gx (Q.div gw (qi 2))) margin
  let gb := Q.sub gy (Q.div gh (qi 2))
  let gt := Q.add gy (Q.div gh (qi 2))
  (windows.any (fun w =>
    if w.facade != facade then false
    else
      let winx := if facade = "front" ∨ facade = "back" then w.posx else w.posy
      let wl := Q.sub winx (Q.div w.sizew (qi 2))
      let wr := Q.add winx (Q.div w.sizew (qi 2))
      let wb := Q.sub w.posz (Q.div w.sizeh (qi 2))
      let wt := Q.add w.posz (Q.div w.sizeh (qi 2))
      !(Q.blt gr wl || Q.blt wr gl || Q.blt gt wb || Q.blt wt gb)))
  || ((doorsGet doors facade).any (fun dr =>
    let dl := Q.sub dr.x (Q.div dr.width (qi 2))
    let drr := Q.add dr.x (Q.div dr.width (qi 2))
    !(Q.blt gr (Q.sub dl margin) || Q.blt (Q.add drr margin) gl)))
  || (garages.any (fun g =>
    if g.facade != facade then false
    else
      let el := Q.sub g.x (Q.div gw (qi 2))
      let er := Q.add g.x (Q.div gw (qi 2))
      !(Q.blt gr (Q.sub el margin) || Q.blt (Q.add er margin) gl)))

/-- Utility/standard door position beside a garage door: to the right with a
0.3 m gap, flipped to the left when it would leave the trimmed facade, and
clamped to the left bound as a last resort. -/
def utilityDoorX (garage_offset gw trim fwCheck udw : Q) : Q :=
  let sp := qd 3 10
  let x0 := Q.add garage_offset (Q.add (Q.div gw (qi 2)) (Q.add sp (Q.div udw (qi 2))))
  let mx := Q.sub (Q.div fwCheck (qi 2)) (Q.add trim (Q.div udw (qi 2)))
  if Q.blt mx (Q.add x0 (Q.div udw (qi 2))) then
    let x1 := Q.sub garage_offset (Q.add (Q.div gw (qi 2)) (Q.add sp (Q.div udw (qi 2))))
    let mn := Q.add (Q.neg (Q.div fwCheck (qi 2))) (Q.add trim (Q.div udw (qi 2)))
    if Q.blt (Q.sub x1 (Q.div udw (qi 2))) mn then mn else x1
  else x0

/-- How a paired utility door is added for each placed garage door:
`0` = none (houses), `1` = warehouse truck-bay standard door (always added),
`2` = factory / barn utility door (added only if clear of windows). -/
def addUtility (mode : ℕ) (windows : List Window) (facade : String)
    (gx gw trim fwCheck udW udH udY : Q) (utType : String)
    (uts : List GarageDoor) : List GarageDoor :=
  if mode = 0 then uts
  else
    let ux := utilityDoorX gx gw trim fwCheck udW
    if mode = 1 then uts ++ [⟨facade, ux, udY, udW, udH, utType⟩]
    else if utility_door_overlaps_window windows ux udY facade fwCheck then uts
    else uts ++ [⟨facade, ux, udY, udW, udH, utType⟩]

/-- One garage-door row (the `for i in range(garage_count)` loop bodies of
the source, which are identical in the spaced and minimal-spacing cases up to
`start_offset`/step): place each door at its slot, try the fixed nearby
offsets on conflict, skip the door when none fits, and add the subtype's
paired utility door. -/
def placeGarageRow (windows : List Window) (doors : Doors) (facade : String)
    (fw trim gw gh gy : Q) (gtype : String) (startOffset step : Q) (count : ℕ)
    (utilityMode : ℕ) (fwCheck udW udH udY : Q) (utType : String)
    (init : List GarageDoor × List GarageDoor) : List GarageDoor × List GarageDoor :=
  (List.range count).foldl (fun acc i =>
    let base := Q.add startOffset (Q.mul (qi i) step)
    let olp := fun gx => garage_door_overlaps windows doors acc.1 facade gw gh gy gx
    let chosen : Option Q :=
      if olp base then
        List.findSome? (fun adj =>
          let t := Q.add base adj
          if Q.ble (Q.add (Q.qabs t) (Q.div gw (qi 2))) (Q.sub (Q.div fw (qi 2)) trim)
              && !(olp t) then some t else none)
          [qd 1 10, qd 2 10, qd 3 10, qd (-1) 10, qd (-2) 10, qd (-3) 10]
      else some base
    match chosen with
    | none => acc
    | some gx =>
      (acc.1 ++ [⟨facade, gx, gy, gw, gh, gtype⟩],
       addUtility utilityMode windows facade gx gw trim fwCheck udW udH udY utType acc.2))
    init

/-- A garage-door row with the source's two spacing regimes: side-by-side
with 0.6 m spacing when the group fits in the trimmed facade, else the
minimal-spacing layout.  `totalForSpacing` is the amount subtracted in the
minimal-spacing formula, which differs between the warehouse/factory/house
block (`garage_width * count`) and the barn block (the full group width). -/
def placeGarageFacade (windows : List Window) (doors : Doors) (facade : String)
    (fw trim gw gh gy : Q) (gtype : String) (count : ℕ) (totalForSpacing : Q)
    (utilityMode : ℕ) (fwCheck udW udH udY : Q) (utType : String)
    (init : List GarageDoor × List GarageDoor) : List GarageDoor × List GarageDoor :=
  let spacing := qd 3 5
  let avail := Q.sub fw (Q.mul trim (qi 2))
  let total := Q.add (Q.mul gw (qi count)) (Q.mul spacing (qi ((count : ℤ) - 1)))
  if Q.ble total avail then
    let start := Q.add (Q.neg (Q.div total (qi 2))) (Q.div gw (qi 2))
    placeGarageRow windows doors facade fw trim gw gh gy gtype start (Q.add gw spacing)
      count utilityMode fwCheck udW udH udY utType init
  else
    let sp2 := if 1 < count then
        Q.div (Q.sub avail totalForSpacing) (qi (max 1 ((count : ℤ) + 1)))
      else Q.div avail (qi 2)
    let start := Q.add (Q.add (Q.neg (Q.div avail (qi 2))) sp2) (Q.div gw (qi 2))
    placeGarageRow windows doors facade fw trim gw gh gy gtype start (Q.add gw sp2)
      count utilityMode fwCheck udW udH udY utType init

/-- Source: `buildings.py` `_generate_garage_doors`: truck-bay doors with
paired standard doors for warehouses, garage doors with window-checked
utility doors for factories, optional garage doors for houses, and the
separate barn / agri-industrial block (whose garage sill sits on the building
base, without the foundation offset). -/
def _generate_garage_doors (width depth height : Q) (building_seed : ℤ)
    (building_subtype : String) (rng : RNG) (corner_trim_width : Q)
    (windows : List Window) (doors : Doors) :
    (List GarageDoor × List GarageDoor) × RNG :=
  let foundation := Q.min (qd 1 2) (Q.mul height (qd 1 10))
  let udW := qd 9 10
  let udH := qd 21 10
  let udY := Q.add (Q.add (Q.neg (Q.div height (qi 2))) foundation) (Q.div udH (qi 2))
  if building_subtype = "warehouse" ∨ building_subtype = "factory" then
    let c : ℕ × RNG :=
      if building_subtype = "warehouse" then
        let p := rng.random
        (max 1 (if Q.blt p.1 (qd 1 2) then 2 else if Q.blt p.1 (qd 85 100) then 3 else 4), p.2)
      else
        let r := RNG.randint 1 3 rng
        (r.1.toNat, r.2)
    let gw := if building_subtype = "warehouse" then qd 12 5 else qi 3
    let gh := if building_subtype = "warehouse" then qi 3 else qi 2
    let gy := Q.add (Q.add (Q.neg (Q.div height (qi 2))) foundation) (Q.div gh (qi 2))
    let gtype := if building_subtype = "warehouse" then "truck_bay" else "garage"
    let pb := c.2.random
    let fc : List String × ℕ × RNG :=
      if Q.blt pb.1 (qd 6 10) then (["front", "back"], c.1, pb.2)
      else
        let ch := RNG.choiceStr ["front", "back"] pb.2
        let cnt := if building_subtype = "warehouse" then RNG.randint 1 4 ch.2
          else RNG.randint 1 3 ch.2
        ([ch.1], cnt.1.toNat, cnt.2)
    let um := if building_subtype = "warehouse" then 1 else 2
    let ut := if building_subtype = "warehouse" then "standard" else "utility"
    let res := fc.1.foldl (fun acc f =>
      placeGarageFacade windows doors f width corner_trim_width gw gh gy gtype fc.2.1
        (Q.mul gw (qi fc.2.1)) um width udW udH udY ut acc) ([], [])
    (res, fc.2.2)
  else if building_subtype = "house" then
    let p := rng.random
    let c : ℕ × RNG :=
      if Q.blt p.1 (qd 3 5) then
        let r := RNG.randint 1 2 p.2
        (r.1.toNat, r.2)
      else (0, p.2)
    if 0 < c.1 then
      let gw := qi 3
      let gh := qi 2
      let gy := Q.add (Q.add (Q.neg (Q.div height (qi 2))) foundation) (Q.div gh (qi 2))
      let pf := c.2.random
      let fc : List String × RNG :=
        if Q.blt pf.1 (qd 4 5) then (["front"], pf.2)
        else
          let ch := RNG.choiceStr ["front", "back"] pf.2
          ([ch.1], ch.2)
      let res := fc.1.foldl (fun acc f =>
        placeGarageFacade windows doors f width corner_trim_width gw gh gy "garage" c.1
          (Q.mul gw (qi c.1)) 0 width udW udH udY "standard" acc) ([], [])
      (res, fc.2)
    else (([], []), c.2)
  else if building_subtype = "barn" ∨ building_subtype = "agri_industrial" then
    let p := rng.random
    let c : ℕ × RNG :=
      if Q.blt p.1 (qd 7 10) then
        let r := RNG.randint 1 2 p.2
        (r.1.toNat, r.2)
      else (0, p.2)
    if 0 < c.1 then
      let gw := qi 3
      let gh := qi 2
      let gy := Q.add (Q.neg (Q.div height (qi 2))) (Q.div gh (qi 2))
      let ch := RNG.choiceStr ["front", "back"] c.2
      let fw := facadeWidthOf ch.1 width depth
      let spacing := qd 3 5
      let total := Q.add (Q.mul gw (qi c.1)) (Q.mul spacing (qi ((c.1 : ℤ) - 1)))
      let res := placeGarageFacade windows doors ch.1 fw corner_trim_width gw gh gy "garage"
        c.1 total 2 fw udW udH udY "utility" ([], [])
      (res, ch.2)
    else (([], []), c.2)
  else (([], []), rng)

/-- The utility-door merge loop at the end of `generate_building`. -/
def mergeUtilityDoors (ds : Doors) (uts : List GarageDoor) : Doors :=
  uts.foldl (fun acc ud => appendDoor acc ud.facade ⟨ud.x, ud.y, ud.width, ud.height, ud.gtype⟩) ds

structure Building where
  building_type : String
  building_subtype : String
  posx : Q
  posy : Q
  floorz : ℤ
  width : Q
  depth : Q
  height : Q
  corners : List (Q × Q × ℤ)
  windows : List Window
  doors : Doors
  garage_doors : List GarageDoor
  seed : ℤ
  zone_importance : Q
  corner_trim_width : Q
deriving DecidableEq, Repr

/-- Source: `buildings.py` `generate_building`.  The optional color lookup
(`hub_name` + external `color_palettes` service) only adds an optional
`colors` entry to the properties bag and is out of the modelled record; all
other fields are embedded.  Note that the source calls `_generate_doors`
without passing `corner_trim_width`, so the doors use the default `0.1`
margin while windows and garage doors use the drawn trim. -/
def generate_building (σ : ℤ → ℕ → Q) (position : Q × Q) (zone_type : String)
    (zone_importance : Q) (building_seed : ℤ) (floor : ℤ)
    (hub_name : Option String) (building_subtype_override : Option String) : Building :=
  let zt := if zone_type = "" then "" else pyStrip (pyLower zone_type)
  let rng := seeded_random σ building_seed
  let dims := match building_subtype_override with
    | some ov =>
      if ov = "" then _get_building_dimensions zt zone_importance rng
      else _get_building_dimensions_with_subtype zt zone_importance rng ov
    | none => _get_building_dimensions zt zone_importance rng
  let w := dims.1.width
  let d := dims.1.depth
  let h := dims.1.height
  let st := dims.1.subtype
  let halfW := Q.div w (qi 2)
  let halfD := Q.div d (qi 2)
  let x := position.1
  let y := position.2
  let corners := [(Q.sub x halfW, Q.sub y halfD, floor), (Q.add x halfW, Q.sub y halfD, floor),
    (Q.add x halfW, Q.add y halfD, floor), (Q.sub x halfW, Q.add y halfD, floor)]
  let trim := RNG.uniform (qd 1 10) (qd 1 2) dims.2
  let windows := _generate_window_grid σ w d h building_seed st trim.1
  let frontDist := Q.qabs (Q.add y (Q.div d (qi 2)))
  let backDist := Q.qabs (Q.sub y (Q.div d (qi 2)))
  let mdf := if Q.blt frontDist backDist then "front"
    else if Q.blt backDist frontDist then "back" else "front"
  let doorsR := _generate_doors w d h building_seed st mdf trim.2 windows (qd 1 10)
  let garageR := _generate_garage_doors w d h building_seed st doorsR.2 trim.1 windows doorsR.1
  let doors := mergeUtilityDoors doorsR.1 garageR.1.2
  ⟨zt, st, x, y, floor, w, d, h, corners, windows, doors, garageR.1.1, building_seed,
    zone_importance, trim.1⟩

/-- Source: `structure_generator.py` `_choose_footprint`: width, depth and
height are three consecutive continuous uniform draws from the size
definition's ranges (no discretization step is applied to the height). -/
def _choose_footprint (wlo whi dlo dhi hlo hhi : Q) (rng : RNG) :
    (Q × Q × Q) × RNG :=
  let w := RNG.uniform wlo whi rng
  let d := RNG.uniform dlo dhi w.2
  let h := RNG.uniform hlo hhi d.2
  ((w.1, d.1, h.1), h.2)

/-- One opening rectangle (door or garage door) collected by
`_filter_windows_by_openings`. -/
structure Opening where
  x : Q
  y : Q
  w : Q
  h : Q
deriving DecidableEq, Repr

/-- The per-window test of `_filter_windows_by_openings`: the window is
discarded when some opening on its facade overlaps it both horizontally
(with margin `max(1, ww/2)`) and vertically (margin `0.25`).  Note the
source always reads `position[0]` as the window's horizontal offset, for
side facades as well. -/
def windowConflicts (ops : List Opening) (win : Window) : Bool :=
  ops.any (fun op =>
    let wx := win.posx
    let wy := win.posz
    let ww := win.sizew
    let wh := win.sizeh
    let margin_x := Q.max (qi 1) (Q.div ww (qi 2))
    let win_left := Q.sub wx (Q.div ww (qi 2))
    let win_right := Q.add wx (Q.div ww (qi 2))
    let op_left := Q.sub op.x (Q.div op.w (qi 2))
    let op_right := Q.add op.x (Q.div op.w (qi 2))
    let horiz := !(Q.blt (Q.add win_right margin_x) op_left
      || Q.blt op_right (Q.sub win_left margin_x))
    let margin_z := qd 1 4
    let op_bottom := Q.sub op.y (Q.div op.h (qi 2))
    let op_top := Q.add op.y (Q.div op.h (qi 2))
    let win_bottom := Q.sub wy (Q.div wh (qi 2))
    let win_top := Q.add wy (Q.div wh (qi 2))
    let vert := !(Q.blt (Q.add win_top margin_z) op_bottom
      || Q.blt op_top (Q.sub win_bottom margin_z))
    horiz && vert)

/-- The openings-by-facade lookup of `_filter_windows_by_openings`: all
doors of the facade followed by the garage doors on it, in source order. -/
def openingsOnFacade (doors : Doors) (garage_doors : List GarageDoor)
    (facade : String) : List Opening :=
  (doorsGet doors facade).map (fun d => ⟨d.x, d.y, d.width, d.height⟩)
    ++ (garage_doors.filter (fun g => g.facade == facade)).map
      (fun g => ⟨g.x, g.y, g.width, g.height⟩)

/-- Source: `structure_generator.py` `_filter_windows_by_openings` (the
`width`/`depth` parameters of the source are unused there and omitted). -/
def _filter_windows_by_openings (windows : List Window) (doors : Doors)
    (garage_doors : List GarageDoor) : List Window :=
  windows.filter (fun win =>
    !(windowConflicts (openingsOnFacade doors garage_doors win.facade) win))

/-- Cell-type distribution record; every table of
`grid._get_zone_distribution` defines all four keys, so the `.get`
defaults of the source never fire on these fields. -/
structure Dist where
  building : Q
  park : Q
  plaza : Q
  road : Q
deriving DecidableEq, Repr

/-- Source: `grid.py` `_get_zone_distribution` with its fallback default
table for unknown zone types. -/
def _get_zone_distribution (zone_type : String) : Dist :=
  if zone_type = "residential" then ⟨qd 70 100, qd 20 100, qd 5 100, qd 5 100⟩
  else if zone_type = "commercial" then ⟨qd 80 100, qd 3 100, qd 15 100, qd 2 100⟩
  else if zone_type = "industrial" then ⟨qd 85 100, qd 2 100, qd 3 100, qd 10 100⟩
  else if zone_type = "mixed_use" then ⟨qd 75 100, qd 15 100, qd 7 100, qd 3 100⟩
  else if zone_type = "agricultural" then ⟨qd 15 100, qd 70 100, qd 5 100, qd 10 100⟩
  else if zone_type = "park" then ⟨qd 5 100, qd 90 100, qd 3 100, qd 2 100⟩
  else if zone_type = "restricted" then ⟨qi 0, qi 0, qi 0, qi 1⟩
  else ⟨qd 70 100, qd 20 100, qd 5 100, qd 5 100⟩

/-- Geometry oracle for one zone polygon, abstracting the shapely
operations used by the grid path: bounding box, closed-set intersection
with an axis-aligned 50 m cell (given by its lower-left corner), strict
interior containment of a point, and distance from a point to the
polygon's exterior ring. -/
structure ZoneGeom where
  minX : Q
  minY : Q
  maxX : Q
  maxY : Q
  intersectsCell : Q → Q → Bool
  containsPoint : Q → Q → Bool
  exteriorDistance : Q → Q → Q

/-- Ceiling on `Q`, mirroring `math.ceil`. -/
def Q.ceil (a : Q) : ℤ := -(Q.floor (Q.neg a))

/-- The interior branch of `_determine_cell_type`: a fresh noise generator
seeded from `hash((chunk_seed, int(cx), int(cy))) % 2**31` picks among
building/park/plaza by the zone distribution. -/
def cellTypeInterior (σ : ℤ → ℕ → Q) (cx cy : Q) (dist : Dist)
    (chunk_seed : ℤ) : String :=
  let noise_seed := (pyHash3 chunk_seed (pyInt cx) (pyInt cy)).emod (2 ^ 31)
  let nv := (seeded_random σ noise_seed).random
  if Q.blt nv.1 dist.building then "building"
  else if Q.blt nv.1 (Q.add dist.building dist.park) then "park"
  else "plaza"

/-- Source: `grid.py` `_determine_cell_type`.  Zones narrower than three
cells (150 m) in either direction treat all cells as interior; otherwise
cells within 1.5 cells of the exterior ring are edge cells drawing
road/plaza, falling back to the interior branch when the edge
probabilities sum to zero.  Only the edge branch consumes a draw from the
shared generator. -/
def _determine_cell_type (σ : ℤ → ℕ → Q) (cx cy : Q) (geo : ZoneGeom)
    (zone_type : String) (rng : RNG) (chunk_seed : ℤ) : String × RNG :=
  let dist := _get_zone_distribution zone_type
  let minDim := Q.min (Q.sub geo.maxX geo.minX) (Q.sub geo.maxY geo.minY)
  let is_edge :=
    if Q.blt minDim (qi 150) then false
    else Q.blt (geo.exteriorDistance cx cy) (qd 150 2)
  if is_edge then
    let tot := Q.add dist.road dist.plaza
    if Q.blt (qi 0) tot then
      let p := rng.random
      if Q.blt p.1 (Q.div dist.road tot) then ("road", p.2) else ("plaza", p.2)
    else (cellTypeInterior σ cx cy dist chunk_seed, rng)
  else (cellTypeInterior σ cx cy dist chunk_seed, rng)

structure GridCell where
  ctype : String
  posx : Q
  posy : Q
  bminx : Q
  bminy : Q
  bmaxx : Q
  bmaxy : Q
  seed : ℤ
deriving DecidableEq, Repr

/-- Emission of one grid cell (the body of the nested `while` loops of
`generate_city_grid`): centroid, bounds, per-cell hash seed, and the cell
type from `_determine_cell_type`, threading the shared generator. -/
def gridCellAt (σ : ℤ → ℕ → Q) (geo : ZoneGeom) (zone_type : String)
    (chunk_seed min_x min_y : ℤ) (p : ℕ × ℕ) (r : RNG) : GridCell × RNG :=
  let x := min_x + 50 * (p.1 : ℤ)
  let y := min_y + 50 * (p.2 : ℤ)
  let cx := qi (x + 25)
  let cy := qi (y + 25)
  let ct := _determine_cell_type σ cx cy geo zone_type r chunk_seed
  let cseed := (pyHash3 chunk_seed (pyInt (Q.div (qi x) (qi 50)))
    (pyInt (Q.div (qi y) (qi 50)))).emod (2 ^ 31)
  (⟨ct.1, cx, cy, qi x, qi y, qi (x + 50), qi (y + 50), cseed⟩, ct.2)

/-- Source: `grid.py` `generate_city_grid`.  Grid-aligned cells covering
the zone's bounding box; every cell whose closed square intersects the
polygon is emitted with its centroid, bounds, a per-cell hash seed, and
the cell type chosen by `_determine_cell_type` (threading the shared
generator in x-major order exactly as the nested `while` loops do). -/
def generate_city_grid (σ : ℤ → ℕ → Q) (geo : ZoneGeom) (zone_type : String)
    (zone_importance : Q) (chunk_seed : ℤ) : List GridCell :=
  let rng0 := seeded_random σ chunk_seed
  let min_x := Q.floor (Q.div geo.minX (qi 50)) * 50
  let min_y := Q.floor (Q.div geo.minY (qi 50)) * 50
  let max_x := Q.ceil (Q.div geo.maxX (qi 50)) * 50
  let max_y := Q.ceil (Q.div geo.maxY (qi 50)) * 50
  let nx := ((max_x - min_x) / 50).toNat
  let ny := ((max_y - min_y) / 50).toNat
  let idx := (List.range nx).flatMap (fun i => (List.range ny).map (fun j => (i, j)))
  (idx.foldl (fun acc p =>
    if geo.intersectsCell (qi (min_x + 50 * (p.1 : ℤ))) (qi (min_y + 50 * (p.2 : ℤ))) then
      let res := gridCellAt σ geo zone_type chunk_seed min_x min_y p acc.2
      (acc.1 ++ [res.1], res.2)
    else acc) (([] : List GridCell), rng0)).1

/-- One zone as seen by `generation._generate_structures_for_zones`:
its `properties.zone_type` string, the `properties.properties.importance`
value the lookup yields (0.5 when absent), the polygon geometry oracle,
and the two GeoJSON well-formedness facts the source tests
(`geometry.type == "Polygon"`, non-empty `coordinates[0]`). -/
structure Zone where
  zone_type : String
  importance : Q
  geo : ZoneGeom
  isPolygon : Bool
  hasCoordinates : Bool

structure ChunkStructure where
  id : String
  structure_type : String
  building_subtype : String
  posx : Q
  posy : Q
  floorz : ℤ
  width : Q
  depth : Q
  height : Q
  windows : List Window
  procedural_seed : ℤ

/-- The body of the per-zone loop of
`generation._generate_structures_for_zones`: unknown zone types and
malformed geometry are skipped outright (`continue`), otherwise each
building-type grid cell gets a building whose four footprint corners must
all be strictly inside the zone polygon (`contains`, no margin) for the
structure to be emitted. -/
def structuresForZone (σ : ℤ → ℕ → Q) (floor chunk_index chunk_seed : ℤ)
    (hub_name : Option String) (zone : Zone) : List ChunkStructure :=
  let zt := pyLower zone.zone_type
  if zt = "restricted" then []
  else if ¬(zt = "industrial" ∨ zt = "commercial" ∨ zt = "mixed_use" ∨ zt = "mixed-use") then []
  else if !zone.isPolygon then []
  else if !zone.hasCoordinates then []
  else
    (generate_city_grid σ zone.geo zt zone.importance chunk_seed).filterMap (fun cell =>
      if cell.ctype == "building" then
        let cell_x := pyInt (Q.div cell.posx (qi 50))
        let cell_y := pyInt (Q.div cell.posy (qi 50))
        let building_seed := get_building_seed chunk_seed cell_x cell_y
        let b := generate_building σ (cell.posx, cell.posy) zt zone.importance
          building_seed floor hub_name none
        let half_width := Q.div b.width (qi 2)
        let half_depth := Q.div b.depth (qi 2)
        let all_within :=
          zone.geo.containsPoint (Q.sub b.posx half_width) (Q.sub b.posy half_depth)
          && zone.geo.containsPoint (Q.add b.posx half_width) (Q.sub b.posy half_depth)
          && zone.geo.containsPoint (Q.add b.posx half_width) (Q.add b.posy half_depth)
          && zone.geo.containsPoint (Q.sub b.posx half_width) (Q.add b.posy half_depth)
        if all_within then
          some ⟨s!"proc_{floor}_{chunk_index}_{cell_x}_{cell_y}", "building",
            b.building_subtype, b.posx, b.posy, floor, b.width, b.depth, b.height,
            b.windows, building_seed⟩
        else none
      else none)

/-- Source: `generation.py` `_generate_structures_for_zones` — structures
of all zones concatenated in zone order. -/
def _generate_structures_for_zones (σ : ℤ → ℕ → Q) (zones : List Zone)
    (floor chunk_index chunk_seed : ℤ) (hub_name : Option String) :
    List ChunkStructure :=
  zones.flatMap (structuresForZone σ floor chunk_index chunk_seed hub_name)

/-- Exact geometry oracle for an axis-aligned rectangular zone
`[x1, x2] × [y1, y2]`: closed-set cell intersection, strict interior
containment, and exterior-ring distance (the min-of-four-sides formula,
exact for interior points; the grid path only consults it for zones at
least 150 m wide in both directions). -/
def rectGeom (x1 y1 x2 y2 : Q) : ZoneGeom :=
  ⟨x1, y1, x2, y2,
    fun cx cy => !(Q.blt (Q.add cx (qi 50)) x1 || Q.blt x2 cx
      || Q.blt (Q.add cy (qi 50)) y1 || Q.blt y2 cy),
    fun px py => Q.blt x1 px && Q.blt px x2 && Q.blt y1 py && Q.blt py y2,
    fun px py => Q.min (Q.min (Q.sub px x1) (Q.sub x2 px))
      (Q.min (Q.sub py y1) (Q.sub y2 py))⟩

/-- The main-door entries of a doors dictionary: every door of type
`"main"`, tagged with its facade, in dictionary order. -/
def mainDoors (ds : Doors) : List (String × Door) :=
  ds.flatMap (fun p => (p.2.filter (fun d => d.dtype == "main")).map (fun d => (p.1, d)))

/-- The facade `generate_building` selects for the main door, as a function
of the building's centre `y` and depth: whichever of front (`y + depth/2`)
and back (`y - depth/2`) is nearer to the ring centreline `y = 0`, front on
ties. -/
def expectedMainFacade (y depth : Q) : String :=
  let frontDist := Q.qabs (Q.add y (Q.div depth (qi 2)))
  let backDist := Q.qabs (Q.sub y (Q.div depth (qi 2)))
  if Q.blt frontDist backDist then "front"
  else if Q.blt backDist frontDist then "back" else "front"

/-- All four footprint corners of an emitted structure lie strictly inside
the zone polygon (the acceptance predicate of the grid path, restated over
the emitted record's fields). -/
def cornersWithin (z : Zone) (s : ChunkStructure) : Prop :=
  z.geo.containsPoint (Q.sub s.posx (Q.div s.width (qi 2)))
      (Q.sub s.posy (Q.div s.depth (qi 2))) = true
  ∧ z.geo.containsPoint (Q.add s.posx (Q.div s.width (qi 2)))
      (Q.sub s.posy (Q.div s.depth (qi 2))) = true
  ∧ z.geo.containsPoint (Q.add s.posx (Q.div s.width (qi 2)))
      (Q.add s.posy (Q.div s.depth (qi 2))) = true
  ∧ z.geo.containsPoint (Q.sub s.posx (Q.div s.width (qi 2)))
      (Q.add s.posy (Q.div s.depth (qi 2))) = true

/-- Positive-area overlap of the axis-aligned footprints of two emitted
structures. -/
def footprintsOverlapPositively (a b : ChunkStructure) : Bool :=
  Q.blt (Q.qabs (Q.sub a.posx b.posx)) (Q.div (Q.add a.width b.width) (qi 2))
  && Q.blt (Q.qabs (Q.sub a.posy b.posy)) (Q.div (Q.add a.depth b.depth) (qi 2))

/-- Axis-aligned rectangle overlap (positive area) of a door and a window in
facade coordinates, with the window's horizontal offset passed explicitly. -/
def doorRectOverlapsWindow (d : Door) (w : Window) (wx : Q) : Bool :=
  let dl := Q.sub d.x (Q.div d.width (qi 2))
  let dr := Q.add d.x (Q.div d.width (qi 2))
  let db := Q.sub d.y (Q.div d.height (qi 2))
  let dt := Q.add d.y (Q.div d.height (qi 2))
  let wl := Q.sub wx (Q.div w.sizew (qi 2))
  let wr := Q.add wx (Q.div w.sizew (qi 2))
  let wb := Q.sub w.posz (Q.div w.sizeh (qi 2))
  let wt := Q.add w.posz (Q.div w.sizeh (qi 2))
  Q.blt (Q.max dl wl) (Q.min dr wr) && Q.blt (Q.max db wb) (Q.min dt wt)

/-- The zone types with their own table in `_get_zone_distribution`. -/
def knownDistZoneTypes : List String :=
  ["residential", "commercial", "industrial", "mixed_use", "agricultural", "park", "restricted"]

/-- The zone types with their own branch in `_get_building_dimensions`. -/
def knownDimZoneTypes : List String :=
  ["residential", "commercial", "industrial", "mixed_use", "mixed-use", "agricultural", "park"]

/-- The per-subtype sets of heights `_get_building_dimensions` can draw for
buildings of the known zone types (unions over all branches that can yield
the subtype). -/
def permittedHeights (subtype : String) : List Q :=
  if subtype = "apartment" ∨ subtype = "campus" then [qi 12, qi 16, qi 20]
  else if subtype = "house" then [qi 8, qi 12]
  else if subtype = "retail" then [qi 20]
  else if subtype = "warehouse" then [qi 5, qi 8, qi 10, qi 12]
  else if subtype = "factory" then [qi 5, qi 8, qi 10, qi 12, qi 16, qi 20]
  else if subtype = "barn" then [qi 5, qi 8, qi 10]
  else if subtype = "park_structure" then [qi 4, qi 8]
  else [qi 4, qi 8, qi 12]

/-- Concrete PRNG stream family for the C2 scenario: an industrial zone
`[0,150] × [-160,-80]`, chunk seed 0; the two cells centred at
`(25,-125)` and `(75,-125)` roll "building" and their buildings draw widths
48 and 60 with common depth 40, so the 50 m cell pitch leaves a 4 m × 40 m
positive-area overlap. -/
def sigC2 : ℤ → ℕ → Q := fun s n =>
  if s = 1122195352 then
    if n = 0 then qd 1 2 else if n = 1 then qd 1 2 else if n = 2 then qi 0
    else if n = 3 then qd 1 5 else if n = 4 then qi 0 else qd 1 2
  else if s = 786135771 then
    if n = 0 then qd 1 2 else if n = 1 then qd 1 2 else if n = 2 then qi 0
    else if n = 3 then qd 1 2 else if n = 4 then qi 0 else qd 1 2
  else if s = 1274858762 ∨ s = 1993469997 then qd 1 2
  else qd 9 10

def zoneC2 : Zone :=
  ⟨"industrial", qd 1 2, rectGeom (qi 0) (qi (-160)) (qi 150) (qi (-80)), true, true⟩

/-- Concrete PRNG stream family for the C3 scenario: same zone as C2 but
only the cell at `(75,-125)` builds, drawing a 40 × 69.9 warehouse whose
south corners sit at `y = -159.95`, 0.05 m from the zone boundary. -/
def sigC3 : ℤ → ℕ → Q := fun s n =>
  if s = 786135771 then
    if n = 0 then qd 1 2 else if n = 1 then qd 1 2 else if n = 2 then qi 0
    else if n = 3 then qi 0 else if n = 4 then qd 299 400 else qd 1 2
  else if s = 1993469997 then qd 1 2
  else qd 9 10

def zoneC3 : Zone :=
  ⟨"industrial", qd 1 2, rectGeom (qi 0) (qi (-160)) (qi 150) (qi (-80)), true, true⟩

/-- The C3 zone with an unknown zone-type string (same geometry and
 importance), for the C9 counterexample. -/
def zoneC9 : Zone :=
  ⟨"spaceport", qd 1 2, rectGeom (qi 0) (qi (-160)) (qi 150) (qi (-80)), true, true⟩

/-- Concrete PRNG stream family for the C10 scenario: two industrial zones
mirrored across `y = 0`; the building cells centred at `(25,-25)` and
`(25,25)` both truncate to index pair `(0,0)`. -/
def sigC10 : ℤ → ℕ → Q := fun s n =>
  if s = 360982090 then
    if n = 0 then qd 7 10 else if n = 1 then qi 0 else if n = 2 then qd 1 7
    else if n = 3 then qd 1 2 else if n = 4 then qi 0 else qd 1 2
  else if s = 1991635368 ∨ s = 202540023 then qd 1 2
  else qd 9 10

def zoneC10N : Zone :=
  ⟨"industrial", qd 1 2, rectGeom (qi 0) (qi (-140)) (qi 100) (qi (-5)), true, true⟩

def zoneC10S : Zone :=
  ⟨"industrial", qd 1 2, rectGeom (qi 0) (qi 5) (qi 100) (qi 140), true, true⟩

/-- Concrete PRNG stream for the C4 scenario: a 20 × 20 × 20 retail building
at `(0, 100)` with corner trim 0.1; every main-door placement attempt
draws 0.5 and collides with the window column there, so the door falls back
to the fixed 5 % inset — on top of a full-height window. -/
def sigC4 : ℤ → ℕ → Q := fun s n =>
  if s = 4242 then
    if n = 0 then qd 1 4 else if n = 1 then qd 1 4 else if n = 2 then qi 0
    else qd 1 2
  else qd 9 10

def bC4 : Building :=
  generate_building sigC4 (qi 0, qi 100) "commercial" (qd 1 2) 4242 0 none none

/-- Concrete PRNG stream for the C6 scenarios: seed 7 drives the industrial
branch to a height-5 warehouse; every other seed yields the constant draw
1/3 (used for the structure-library footprint draw). -/
def sigC6 : ℤ → ℕ → Q := fun s n =>
  if s = 7 then
    if n = 0 then qd 1 2 else if n = 1 then qd 1 2 else if n = 2 then qi 0 else qd 1 2
  else qd 1 3

/-- A placeholder structure record used only as the `getD` default in closed
statements. -/
def noStructure : ChunkStructure :=
  ⟨"", "", "", qi 0, qi 0, 0, qi 0, qi 0, qi 0, [], 0⟩

/-- A sample window used to instantiate the window-filter theorem. -/
def wC4 : Window := ⟨qi 0, qi 0, qi 0, qi 1, qi 1, "front", "standard"⟩

/-- All heights `_get_building_dimensions` can produce, over every branch. -/
def globalHeights : List Q := [qi 4, qi 5, qi 8, qi 10, qi 12, qi 16, qi 20]

theorem Q.unit_d_pos (a : Q) : 0 < (Q.unit a).d := by
  unfold Q.unit
  split
  · assumption
  · norm_num

theorem Q.unit_n_nonneg (a : Q) : 0 ≤ (Q.unit a).n := by
  unfold Q.unit
  split
  · exact Int.emod_nonneg _ (by omega)
  · norm_num

theorem Q.unit_n_lt_d (a : Q) : (Q.unit a).n < (Q.unit a).d := by
  unfold Q.unit
  split
  · exact Int.emod_lt_of_pos _ (by assumption)
  · norm_num

/-- Cross-validation against CPython: `hash((0, 0, 12345)) % 2**31`. -/
theorem get_chunk_seed_cpython_sample : get_chunk_seed 0 0 12345 = 156285456 := by decide

/-- C7: for every parent seed and integer coordinates, seed derivation
(`get_chunk_seed`, `get_building_seed`, `get_window_seed`) is a pure function
whose result is a non-negative integer strictly less than `2^31`, and
identical argument tuples always yield identical seeds.  (The embedded hash
is CPython's deterministic integer/tuple hash; hash randomization applies
only to `str`/`bytes`, so no non-deterministic seeding is involved.) -/
theorem C7_seed_range_and_determinism :
    (∀ f c w : ℤ, 0 ≤ get_chunk_seed f c w ∧ get_chunk_seed f c w < 2 ^ 31)
    ∧ (∀ s x y : ℤ, 0 ≤ get_building_seed s x y ∧ get_building_seed s x y < 2 ^ 31)
    ∧ (∀ s x y : ℤ, 0 ≤ get_window_seed s x y ∧ get_window_seed s x y < 2 ^ 31)
    ∧ (∀ f₁ f₂ c₁ c₂ w₁ w₂ : ℤ, f₁ = f₂ → c₁ = c₂ → w₁ = w₂ →
        get_chunk_seed f₁ c₁ w₁ = get_chunk_seed f₂ c₂ w₂) := by
  refine ⟨?_, ?_, ?_, ?_⟩
  · intro f c w
    exact ⟨Int.emod_nonneg _ (by norm_num), Int.emod_lt_of_pos _ (by norm_num)⟩
  · intro s x y
    exact ⟨Int.emod_nonneg _ (by norm_num), Int.emod_lt_of_pos _ (by norm_num)⟩
  · intro s x y
    exact ⟨Int.emod_nonneg _ (by norm_num), Int.emod_lt_of_pos _ (by norm_num)⟩
  · intro f₁ f₂ c₁ c₂ w₁ w₂ hf hc hw
    rw [hf, hc, hw]

/-- Witness for C7 at concrete inputs. -/
theorem C7_seed_range_and_determinism_witness :
    (0 ≤ get_chunk_seed 0 0 12345 ∧ get_chunk_seed 0 0 12345 < 2 ^ 31)
    ∧ get_chunk_seed 3 4 5 = get_chunk_seed 3 4 5 :=
  ⟨C7_seed_range_and_determinism.1 0 0 12345,
   C7_seed_range_and_determinism.2.2.2 3 3 4 4 5 5 rfl rfl rfl⟩

theorem idxOf_lt_of_unit (v : Q) (len : ℕ) (hlen : 0 < len) :
    idxOf (Q.unit v) len < len := by
  have hd := Q.unit_d_pos v
  have hn0 := Q.unit_n_nonneg v
  have hnd := Q.unit_n_lt_d v
  unfold idxOf Q.floor Q.mul qi
  dsimp only
  have hlenZ : (0 : ℤ) < (len : ℤ) := by exact_mod_cast hlen
  have hfd : ((Q.unit v).n * len).fdiv ((Q.unit v).d * 1) < (len : ℤ) := by
    rw [mul_one, Int.fdiv_eq_ediv _ (le_of_lt hd), Int.ediv_lt_iff_lt_mul hd]
    calc (Q.unit v).n * (len : ℤ) < (Q.unit v).d * len :=
          mul_lt_mul_of_pos_right hnd hlenZ
      _ = (len : ℤ) * (Q.unit v).d := mul_comm _ _
  have hnn : 0 ≤ ((Q.unit v).n * len).fdiv ((Q.unit v).d * 1) := by
    rw [mul_one, Int.fdiv_eq_ediv _ (le_of_lt hd)]
    exact Int.ediv_nonneg (by positivity) (le_of_lt hd)
  omega

theorem idxOf_getD_mem {α : Type} (xs : List α) (v : Q) (dflt : α) (h : xs ≠ []) :
    xs.getD (idxOf (Q.unit v) xs.length) dflt ∈ xs := by
  have hlen : 0 < xs.length := List.length_pos.mpr h
  have hidx := idxOf_lt_of_unit v xs.length hlen
  rw [List.getD_eq_getElem xs dflt hidx]
  exact List.getElem_mem hidx

theorem RNG.choice_mem (xs : List Q) (r : RNG) (h : xs ≠ []) : (RNG.choice xs r).1 ∈ xs :=
  idxOf_getD_mem xs _ _ h

theorem RNG.choiceStr_mem (xs : List String) (r : RNG) (h : xs ≠ []) :
    (RNG.choiceStr xs r).1 ∈ xs :=
  idxOf_getD_mem xs _ _ h

theorem listSwap_subset {α : Type} (xs : List α) (i j : ℕ) :
    ∀ a ∈ listSwap xs i j, a ∈ xs := by
  intro a ha
  unfold listSwap at ha
  split at ha
  · rcases List.mem_or_eq_of_mem_set ha with h1 | h1
    · rcases List.mem_or_eq_of_mem_set h1 with h2 | h2
      · exact h2
      · exact h2 ▸ List.get_mem xs _ _
    · exact h1 ▸ List.get_mem xs _ _
  · exact ha

theorem shuffleAux_subset {α : Type} (xs : List α) (i : ℕ) (r : RNG) :
    ∀ a ∈ (shuffleAux xs i r).1, a ∈ xs := by
  induction i generalizing xs r with
  | zero => intro a ha; exact ha
  | succ i ih =>
    intro a ha
    unfold shuffleAux at ha
    exact listSwap_subset xs _ _ a (ih _ _ a ha)

theorem RNG.shuffle_subset {α : Type} (xs : List α) (r : RNG) :
    ∀ a ∈ (RNG.shuffle xs r).1, a ∈ xs :=
  shuffleAux_subset xs _ r

theorem pyModQ_nonneg (a b : ℚ) (hb : 0 < b) : 0 ≤ pyModQ a b := by
  unfold pyModQ
  have h := Int.sub_floor_div_mul_nonneg a hb
  simpa [mul_comm] using h

theorem pyModQ_lt (a b : ℚ) (hb : 0 < b) : pyModQ a b < b := by
  unfold pyModQ
  have h := Int.sub_floor_div_mul_lt a hb
  simpa [mul_comm] using h

theorem pyModQ_eq_self (a b : ℚ) (hb : 0 < b) (h0 : 0 ≤ a) (h1 : a < b) :
    pyModQ a b = a := by
  unfold pyModQ
  have : ⌊a / b⌋ = 0 := by
    rw [Int.floor_eq_zero_iff]
    constructor
    · positivity
    · rw [div_lt_one hb]; exact h1
  rw [this]
  ring

theorem wrap_position_nonneg (p : ℚ) : 0 ≤ wrap_position p :=
  pyModQ_nonneg _ _ (by norm_num [RING_CIRCUMFERENCE])

theorem wrap_position_lt (p : ℚ) : wrap_position p < RING_CIRCUMFERENCE :=
  pyModQ_lt _ _ (by norm_num [RING_CIRCUMFERENCE])

theorem wrap_position_eq_self (p : ℚ) (h0 : 0 ≤ p) (h1 : p < RING_CIRCUMFERENCE) :
    wrap_position p = p := by
  unfold wrap_position
  rw [pyModQ_eq_self p _ (by norm_num [RING_CIRCUMFERENCE]) h0 h1]
  unfold pyModQ
  have : ⌊(p + RING_CIRCUMFERENCE) / RING_CIRCUMFERENCE⌋ = 1 := by
    rw [Int.floor_eq_iff]
    rw [RING_CIRCUMFERENCE] at h1 ⊢
    constructor
    · rw [le_div_iff₀ (by norm_num)]; push_cast; linarith
    · rw [div_lt_iff₀ (by norm_num)]; push_cast; linarith
  rw [this]
  ring

theorem wrap_position_idem (p : ℚ) : wrap_position (wrap_position p) = wrap_position p :=
  wrap_position_eq_self _ (wrap_position_nonneg p) (wrap_position_lt p)

theorem distance_wrap_left (p1 p2 : ℚ) :
    distance_with_wrapping (wrap_position p1) p2 = distance_with_wrapping p1 p2 := by
  unfold distance_with_wrapping
  rw [wrap_position_idem]

theorem foldl_findStep_none (wp : ℚ) (l : List Station)
    (h : ∀ st ∈ l, st.station_type.flare_length / 2 < distance_with_wrapping wp st.position) :
    l.foldl (findStep wp) none = none := by
  induction l with
  | nil => rfl
  | cons st l ih =>
    have hst := h st (by simp)
    have hstep : findStep wp none st = none := by
      unfold findStep
      have : ¬ (distance_with_wrapping wp st.position ≤ st.station_type.flare_length / 2) := by
        exact not_le.mpr hst
      simp [this]
    rw [List.foldl_cons, hstep]
    exact ih (fun s hs => h s (by simp [hs]))

theorem foldl_findStep_some (wp : ℚ) (l : List Station) (acc : Option (Station × ℚ))
    (st : Station) (d : ℚ) (h : l.foldl (findStep wp) acc = some (st, d)) :
    (st ∈ l ∧ d = distance_with_wrapping wp st.position
      ∧ d ≤ st.station_type.flare_length / 2) ∨ acc = some (st, d) := by
  induction l generalizing acc with
  | nil => exact Or.inr h
  | cons s l ih =>
    rw [List.foldl_cons] at h
    rcases ih (findStep wp acc s) h with h1 | h1
    · exact Or.inl ⟨List.mem_cons_of_mem _ h1.1, h1.2⟩
    · unfold findStep at h1
      by_cases hc : (decide (distance_with_wrapping wp s.position ≤
          s.station_type.flare_length / 2) && nearerThan acc (distance_with_wrapping wp s.position)) = true
      · rw [if_pos hc] at h1
        have heq : s = st ∧ distance_with_wrapping wp s.position = d := by
          have := h1
          injection this with h2
          exact ⟨congrArg Prod.fst h2, congrArg Prod.snd h2⟩
        rcases heq with ⟨hs, hd⟩
        subst hs
        refine Or.inl ⟨List.mem_cons_self _ _, hd.symm, ?_⟩
        rw [← hd]
        have := (Bool.and_eq_true _ _).mp hc
        exact of_decide_eq_true this.1
      · rw [if_neg hc] at h1
        exact Or.inr h1

theorem find_nearest_station_mem (x : ℚ) (st : Station) (d : ℚ)
    (h : find_nearest_station x = some (st, d)) :
    st ∈ PILLAR_STATIONS ∧ d = distance_with_wrapping x st.position
      ∧ d ≤ st.station_type.flare_length / 2 := by
  unfold find_nearest_station at h
  rcases foldl_findStep_some _ _ _ _ _ h with h1 | h1
  · exact ⟨h1.1, by rw [h1.2.1, distance_wrap_left], h1.2.2⟩
  · exact absurd h1 (by simp)

theorem pillar_station_type (st : Station) (h : st ∈ PILLAR_STATIONS) :
    st.station_type = PILLAR_ELEVATOR_HUB := by
  unfold PILLAR_STATIONS at h
  rcases List.mem_map.mp h with ⟨p, _, hp⟩
  rw [← hp]

/-- C5: `calculate_flare_width` returns exactly the base width (400) when no
station lies within its influence half-length (`flare_length / 2`) of the
position; at a nearest-station distance exactly equal to the influence
half-length the cosine blend contributes 0 and the width is again exactly the
base width; and at distance 0 the width equals the station's maximum
(`2 * max_flare_radius`, via the plateau). -/
theorem C5_flare_width_boundary_behavior :
    (∀ x : ℚ, (∀ st ∈ PILLAR_STATIONS,
        st.station_type.flare_length / 2 < distance_with_wrapping x st.position) →
      calculate_flare_width x = (BASE_WIDTH : ℝ))
    ∧ (∀ x : ℚ, ∀ st : Station, ∀ d : ℚ, find_nearest_station x = some (st, d) →
        d = st.station_type.flare_length / 2 →
        calculate_flare_width x = (BASE_WIDTH : ℝ))
    ∧ (∀ x : ℚ, ∀ st : Station, find_nearest_station x = some (st, 0) →
        calculate_flare_width x = ((st.station_type.max_flare_radius * 2 : ℚ) : ℝ)) := by
  refine ⟨?_, ?_, ?_⟩
  · intro x hx
    have hnone : find_nearest_station x = none := by
      unfold find_nearest_station
      apply foldl_findStep_none
      intro st hst
      rw [distance_wrap_left]
      exact hx st hst
    unfold calculate_flare_width
    rw [hnone]
  · intro x st d hfind hd
    have hmem := find_nearest_station_mem x st d hfind
    have htype := pillar_station_type st hmem.1
    have hred : calculate_flare_width x = flare_width_of_station st d := by
      unfold calculate_flare_width
      rw [hfind]
    rw [hred]
    unfold flare_width_of_station
    have hfr : d ≤ st.station_type.flare_length / 2 := hmem.2.2
    rw [if_pos hfr, if_pos htype]
    have hple : ¬ (0 < (2500 : ℚ) ∧ d ≤ 2500) := by
      rw [htype] at hd
      unfold PILLAR_ELEVATOR_HUB at hd
      simp only at hd
      intro hc
      rw [hd] at hc
      norm_num at hc
    rw [if_neg hple]
    have hnd : (if st.station_type.flare_length / 2 - 2500 ≤ 0 then (1 : ℚ)
        else max (d - 2500) 0 / (st.station_type.flare_length / 2 - 2500)) = 1 := by
      rw [htype, hd, htype]
      unfold PILLAR_ELEVATOR_HUB
      norm_num
    dsimp only
    rw [hnd]
    push_cast
    rw [mul_one, Real.cos_pi]
    ring
  · intro x st hfind
    have hmem := find_nearest_station_mem x st 0 hfind
    have htype := pillar_station_type st hmem.1
    have hred : calculate_flare_width x = flare_width_of_station st 0 := by
      unfold calculate_flare_width
      rw [hfind]
    rw [hred]
    unfold flare_width_of_station
    have hfr : (0 : ℚ) ≤ st.station_type.flare_length / 2 := by
      rw [htype]; unfold PILLAR_ELEVATOR_HUB; norm_num
    rw [if_pos hfr, if_pos htype]
    rw [if_pos (by norm_num)]

theorem find_nearest_station_at_25000 :
    find_nearest_station 25000 = some (⟨0, PILLAR_ELEVATOR_HUB⟩, 25000) := by
  unfold find_nearest_station PILLAR_STATIONS PILLAR_HUB_POSITIONS
  norm_num [List.foldl, findStep, nearerThan, distance_with_wrapping, wrap_position,
    pyModQ, RING_CIRCUMFERENCE, PILLAR_ELEVATOR_HUB]

theorem find_nearest_station_at_0 :
    find_nearest_station 0 = some (⟨0, PILLAR_ELEVATOR_HUB⟩, 0) := by
  unfold find_nearest_station PILLAR_STATIONS PILLAR_HUB_POSITIONS
  norm_num [List.foldl, findStep, nearerThan, distance_with_wrapping, wrap_position,
    pyModQ, RING_CIRCUMFERENCE, PILLAR_ELEVATOR_HUB]

/-- Witness for C5: position 11 000 000 m is out of every flare range (width
400 exactly); position 25 000 m is at exactly the influence half-length of hub
0 (width 400 exactly); position 0 is at a hub center (width 25 000 = twice the
maximum flare radius). -/
theorem C5_flare_width_boundary_behavior_witness :
    calculate_flare_width 11000000 = (BASE_WIDTH : ℝ)
    ∧ calculate_flare_width 25000 = (BASE_WIDTH : ℝ)
    ∧ calculate_flare_width 0 = ((PILLAR_ELEVATOR_HUB.max_flare_radius * 2 : ℚ) : ℝ) :=
  ⟨C5_flare_width_boundary_behavior.1 11000000 (by
      intro st hst
      fin_cases hst <;>
        norm_num [distance_with_wrapping, wrap_position, pyModQ, RING_CIRCUMFERENCE,
          PILLAR_ELEVATOR_HUB]),
   C5_flare_width_boundary_behavior.2.1 25000 ⟨0, PILLAR_ELEVATOR_HUB⟩ 25000
     find_nearest_station_at_25000 (by norm_num [PILLAR_ELEVATOR_HUB]),
   C5_flare_width_boundary_behavior.2.2 0 ⟨0, PILLAR_ELEVATOR_HUB⟩
     find_nearest_station_at_0⟩

/-- C1: generate_building is deterministic: with equal seed, position, zone
type, importance, floor, hub name, subtype override and PRNG stream family,
two invocations agree on subtype, dimensions, corners, and the window, door
and garage-door lists (in order). -/
theorem C1_generate_building_deterministic
    (σ σ' : ℤ → ℕ → Q) (pos pos' : Q × Q) (zt zt' : String) (imp imp' : Q)
    (seed seed' floor floor' : ℤ) (hub hub' ov ov' : Option String)
    (hσ : σ = σ') (hp : pos = pos') (hz : zt = zt') (hi : imp = imp')
    (hs : seed = seed') (hf : floor = floor') (hh : hub = hub') (ho : ov = ov') :
    (generate_building σ pos zt imp seed floor hub ov).building_subtype
      = (generate_building σ' pos' zt' imp' seed' floor' hub' ov').building_subtype
    ∧ (generate_building σ pos zt imp seed floor hub ov).width
      = (generate_building σ' pos' zt' imp' seed' floor' hub' ov').width
    ∧ (generate_building σ pos zt imp seed floor hub ov).depth
      = (generate_building σ' pos' zt' imp' seed' floor' hub' ov').depth
    ∧ (generate_building σ pos zt imp seed floor hub ov).height
      = (generate_building σ' pos' zt' imp' seed' floor' hub' ov').height
    ∧ (generate_building σ pos zt imp seed floor hub ov).corners
      = (generate_building σ' pos' zt' imp' seed' floor' hub' ov').corners
    ∧ (generate_building σ pos zt imp seed floor hub ov).windows
      = (generate_building σ' pos' zt' imp' seed' floor' hub' ov').windows
    ∧ (generate_building σ pos zt imp seed floor hub ov).doors
      = (generate_building σ' pos' zt' imp' seed' floor' hub' ov').doors
    ∧ (generate_building σ pos zt imp seed floor hub ov).garage_doors
      = (generate_building σ' pos' zt' imp' seed' floor' hub' ov').garage_doors := by
  subst hσ hp hz hi hs hf hh ho
  exact ⟨rfl, rfl, rfl, rfl, rfl, rfl, rfl, rfl⟩

theorem C1_generate_building_deterministic_witness :
    (generate_building sigC4 (qi 0, qi 100) "commercial" (qd 1 2) 4242 0 none none).building_subtype
      = (generate_building sigC4 (qi 0, qi 100) "commercial" (qd 1 2) 4242 0 none none).building_subtype
    ∧ (generate_building sigC4 (qi 0, qi 100) "commercial" (qd 1 2) 4242 0 none none).width
      = (generate_building sigC4 (qi 0, qi 100) "commercial" (qd 1 2) 4242 0 none none).width
    ∧ (generate_building sigC4 (qi 0, qi 100) "commercial" (qd 1 2) 4242 0 none none).depth
      = (generate_building sigC4 (qi 0, qi 100) "commercial" (qd 1 2) 4242 0 none none).depth
    ∧ (generate_building sigC4 (qi 0, qi 100) "commercial" (qd 1 2) 4242 0 none none).height
      = (generate_building sigC4 (qi 0, qi 100) "commercial" (qd 1 2) 4242 0 none none).height
    ∧ (generate_building sigC4 (qi 0, qi 100) "commercial" (qd 1 2) 4242 0 none none).corners
      = (generate_building sigC4 (qi 0, qi 100) "commercial" (qd 1 2) 4242 0 none none).corners
    ∧ (generate_building sigC4 (qi 0, qi 100) "commercial" (qd 1 2) 4242 0 none none).windows
      = (generate_building sigC4 (qi 0, qi 100) "commercial" (qd 1 2) 4242 0 none none).windows
    ∧ (generate_building sigC4 (qi 0, qi 100) "commercial" (qd 1 2) 4242 0 none none).doors
      = (generate_building sigC4 (qi 0, qi 100) "commercial" (qd 1 2) 4242 0 none none).doors
    ∧ (generate_building sigC4 (qi 0, qi 100) "commercial" (qd 1 2) 4242 0 none none).garage_doors
      = (generate_building sigC4 (qi 0, qi 100) "commercial" (qd 1 2) 4242 0 none none).garage_doors :=
  C1_generate_building_deterministic sigC4 sigC4 (qi 0, qi 100) (qi 0, qi 100)
    "commercial" "commercial" (qd 1 2) (qd 1 2) 4242 4242 0 0 none none none none
    rfl rfl rfl rfl rfl rfl rfl rfl

/-- C2: the grid-cell path performs no spacing or overlap check at all: in
this concrete industrial-zone run, two adjacent 50 m cells are both accepted
with buildings 48 m and 60 m wide, whose footprints overlap with positive
area (4 m × 40 m), contradicting the minimum-separation requirement. -/
theorem C2_grid_path_positive_overlap :
    (_generate_structures_for_zones sigC2 [zoneC2] 0 0 0 none).length = 2
    ∧ ((_generate_structures_for_zones sigC2 [zoneC2] 0 0 0 none).map (fun s => s.id))
      = ["proc_0_0_0_-2", "proc_0_0_1_-2"]
    ∧ footprintsOverlapPositively
        ((_generate_structures_for_zones sigC2 [zoneC2] 0 0 0 none).getD 0 noStructure)
        ((_generate_structures_for_zones sigC2 [zoneC2] 0 0 0 none).getD 1 noStructure)
      = true := by
  refine ⟨by decide, by decide, by decide⟩

/-- C4 (amended part): the scatter-path filter `_filter_windows_by_openings`
does implement the discard pass — every window it keeps conflicts with no
door or garage-door opening on its facade under the filter's margins, and
windows are the ones discarded (the output is a sublist of the input
windows; doors are untouched). -/
theorem C4_filter_discards_conflicting_windows (windows : List Window)
    (doors : Doors) (gds : List GarageDoor) (w : Window)
    (h : w ∈ _filter_windows_by_openings windows doors gds) :
    w ∈ windows ∧ windowConflicts (openingsOnFacade doors gds w.facade) w = false := by
  have h' := List.mem_filter.mp h
  refine ⟨h'.1, ?_⟩
  simpa using h'.2

theorem C4_filter_discards_conflicting_windows_witness :
    wC4 ∈ [wC4]
    ∧ wC4 ∈ _filter_windows_by_openings [wC4] [] []
    ∧ (wC4 ∈ [wC4]
      ∧ windowConflicts (openingsOnFacade [] [] wC4.facade) wC4 = false) :=
  ⟨by decide, by decide,
    C4_filter_discards_conflicting_windows [wC4] [] [] wC4 (by decide)⟩

/-- C4 (counterexample to the original claim): the building path emits the
final opening set with no global discard pass; in this retail building the
main door's fallback position overlaps a kept full-height window of the same
facade with positive area (0.9 m × 1.6 m), so the claimed final
non-overlap invariant does not hold for `generate_building`'s output. -/
theorem C4_building_door_window_overlap_counterexample :
    bC4.building_subtype = "retail"
    ∧ ((doorsGet bC4.doors "back").any (fun d => d.dtype == "main"
        && bC4.windows.any (fun w => w.facade == "back"
          && doorRectOverlapsWindow d w w.posx))) = true := by
  refine ⟨by decide, by decide⟩

theorem and_mem_heights (L : List Q) (st : String) (r : RNG) (hne : L ≠ [])
    (h : ∀ x ∈ L, x ∈ permittedHeights st ∧ x ∈ globalHeights) :
    (RNG.choice L r).1 ∈ permittedHeights st ∧ (RNG.choice L r).1 ∈ globalHeights :=
  h _ (RNG.choice_mem L r hne)

theorem heights_ok_both (Lh : List Q) (Ls : List String) (rh rs : RNG)
    (hneh : Lh ≠ []) (hnes : Ls ≠ [])
    (h : ∀ s ∈ Ls, ∀ x ∈ Lh, x ∈ permittedHeights s ∧ x ∈ globalHeights) :
    (RNG.choice Lh rh).1 ∈ permittedHeights ((RNG.choiceStr Ls rs).1)
    ∧ (RNG.choice Lh rh).1 ∈ globalHeights :=
  h _ (RNG.choiceStr_mem Ls rs hnes) _ (RNG.choice_mem Lh rh hneh)

theorem default_height_ok (L : List Q) (r : RNG) (hne : L ≠ [])
    (h : ∀ x ∈ L, Q.mul x FLOOR_HEIGHT ∈ [qi 4, qi 8, qi 12]) :
    Q.mul ((RNG.choice L r).1) FLOOR_HEIGHT ∈ [qi 4, qi 8, qi 12] :=
  h _ (RNG.choice_mem L r hne)

theorem dimsResidential_height_mem (rng : RNG) :
    (dimsResidential rng).1.height ∈ permittedHeights (dimsResidential rng).1.subtype
    ∧ (dimsResidential rng).1.height ∈ globalHeights := by
  unfold dimsResidential
  dsimp only
  split
  · try dsimp only
    exact heights_ok_both _ _ _ _ (by simp) (by simp) (by decide)
  · try dsimp only
    exact and_mem_heights _ _ _ (by simp) (by decide)

theorem dimsCommercial_height_mem (rng : RNG) :
    (dimsCommercial rng).1.height ∈ permittedHeights (dimsCommercial rng).1.subtype
    ∧ (dimsCommercial rng).1.height ∈ globalHeights := by
  unfold dimsCommercial
  dsimp only
  exact ⟨by decide, by decide⟩

theorem dimsIndustrial_height_mem (b : Bool) (rng : RNG) :
    (dimsIndustrial b rng).1.height ∈ permittedHeights (dimsIndustrial b rng).1.subtype
    ∧ (dimsIndustrial b rng).1.height ∈ globalHeights := by
  unfold dimsIndustrial
  split
  · dsimp only
    split
    · try dsimp only
      exact and_mem_heights _ _ _ (by simp) (by decide)
    · try dsimp only
      exact ⟨by decide, by decide⟩
  · dsimp only
    split
    · try dsimp only
      exact and_mem_heights _ _ _ (by simp) (by decide)
    · try dsimp only
      exact and_mem_heights _ _ _ (by simp) (by decide)

theorem dimsAgricultural_height_mem (b : Bool) (rng : RNG) :
    (dimsAgricultural b rng).1.height ∈ permittedHeights (dimsAgricultural b rng).1.subtype
    ∧ (dimsAgricultural b rng).1.height ∈ globalHeights := by
  unfold dimsAgricultural
  split
  · dsimp only
    exact and_mem_heights _ _ _ (by simp) (by decide)
  · dsimp only
    split
    · try dsimp only
      exact and_mem_heights _ _ _ (by simp) (by decide)
    · try dsimp only
      exact and_mem_heights _ _ _ (by simp) (by decide)

theorem dimsMixedUse_height_mem (rng : RNG) :
    (dimsMixedUse rng).1.height ∈ permittedHeights (dimsMixedUse rng).1.subtype
    ∧ (dimsMixedUse rng).1.height ∈ globalHeights := by
  unfold dimsMixedUse
  dsimp only
  split
  · exact dimsResidential_height_mem _
  · split
    · exact dimsCommercial_height_mem _
    · try dsimp only
      split
      · try dsimp only
        exact and_mem_heights _ _ _ (by simp) (by decide)
      · try dsimp only
        exact and_mem_heights _ _ _ (by simp) (by decide)

theorem dimsPark_height_mem (rng : RNG) :
    (dimsPark rng).1.height ∈ permittedHeights (dimsPark rng).1.subtype
    ∧ (dimsPark rng).1.height ∈ globalHeights := by
  unfold dimsPark
  dsimp only
  exact and_mem_heights _ _ _ (by simp) (by decide)

theorem dimsDefault_height_mem (zt : String) (rng : RNG) :
    (dimsDefault zt rng).1.height ∈ [qi 4, qi 8, qi 12]
    ∧ (dimsDefault zt rng).1.subtype = zt := by
  unfold dimsDefault
  dsimp only
  exact ⟨default_height_ok _ _ (by simp) (by decide), rfl⟩

theorem dimsBase_height_mem (zt : String) (rng : RNG) :
    (dimsBase zt rng).1.height ∈ globalHeights
    ∧ (zt ∈ knownDimZoneTypes →
      (dimsBase zt rng).1.height ∈ permittedHeights (dimsBase zt rng).1.subtype) := by
  unfold dimsBase
  split
  · exact ⟨(dimsIndustrial_height_mem _ _).2, fun _ => (dimsIndustrial_height_mem _ _).1⟩
  · split
    · exact ⟨(dimsAgricultural_height_mem _ _).2, fun _ => (dimsAgricultural_height_mem _ _).1⟩
    · split
      · exact ⟨(dimsResidential_height_mem _).2, fun _ => (dimsResidential_height_mem _).1⟩
      · split
        · exact ⟨(dimsCommercial_height_mem _).2, fun _ => (dimsCommercial_height_mem _).1⟩
        · split
          · exact ⟨(dimsMixedUse_height_mem _).2, fun _ => (dimsMixedUse_height_mem _).1⟩
          · split
            · exact ⟨(dimsPark_height_mem _).2, fun _ => (dimsPark_height_mem _).1⟩
            · rename_i h1 h2 h3 h4 h5 h6
              have hd1 := (dimsDefault_height_mem zt rng).1
              simp only [List.mem_cons, List.not_mem_nil, or_false] at hd1
              constructor
              · rcases hd1 with h | h | h <;> rw [h] <;> decide
              · intro hk
                simp only [knownDimZoneTypes, List.mem_cons, List.not_mem_nil, or_false] at hk
                rcases hk with h | h | h | h | h | h | h <;> subst h <;>
                  simp at h1 h2 h3 h4 h5 h6

/-- C6 (amended): for the known zone types every height drawn by
`_get_building_dimensions` belongs to the fixed finite per-subtype set; in
all cases the height is one of the seven global discrete values, is at most
20 m, and is unchanged by the importance scale (which touches only width and
depth).  (Not every permitted value sits on the 4 m floor grid, and the
structure-library path draws heights continuously — see the
counterexample.) -/
theorem C6_height_from_discrete_subtype_set (zone_type : String) (imp imp' : Q) (rng : RNG) :
    (pyStrip (pyLower zone_type) ∈ knownDimZoneTypes →
      (_get_building_dimensions zone_type imp rng).1.height
        ∈ permittedHeights (_get_building_dimensions zone_type imp rng).1.subtype)
    ∧ (_get_building_dimensions zone_type imp rng).1.height ∈ globalHeights
    ∧ Q.ble (_get_building_dimensions zone_type imp rng).1.height (qi 20) = true
    ∧ (_get_building_dimensions zone_type imp rng).1.height
      = (_get_building_dimensions zone_type imp' rng).1.height := by
  have hb := dimsBase_height_mem (pyStrip (pyLower zone_type)) rng
  have hhe : (_get_building_dimensions zone_type imp rng).1.height
      = (dimsBase (pyStrip (pyLower zone_type)) rng).1.height := rfl
  have hse : (_get_building_dimensions zone_type imp rng).1.subtype
      = (dimsBase (pyStrip (pyLower zone_type)) rng).1.subtype := rfl
  refine ⟨fun hk => ?_, ?_, ?_, rfl⟩
  · rw [hhe, hse]; exact hb.2 hk
  · rw [hhe]; exact hb.1
  · rw [hhe]
    have := hb.1
    simp only [globalHeights, List.mem_cons, List.not_mem_nil, or_false] at this
    rcases this with h | h | h | h | h | h | h <;> rw [h] <;> decide

theorem C6_height_from_discrete_subtype_set_witness :
    (pyStrip (pyLower "industrial") ∈ knownDimZoneTypes)
    ∧ ((_get_building_dimensions "industrial" (qi 0) (seeded_random sigC6 7)).1.height
        ∈ permittedHeights
          (_get_building_dimensions "industrial" (qi 0) (seeded_random sigC6 7)).1.subtype)
    ∧ (_get_building_dimensions "industrial" (qi 0) (seeded_random sigC6 7)).1.height ∈ globalHeights
    ∧ Q.ble (_get_building_dimensions "industrial" (qi 0) (seeded_random sigC6 7)).1.height (qi 20) = true
    ∧ (_get_building_dimensions "industrial" (qi 0) (seeded_random sigC6 7)).1.height
      = (_get_building_dimensions "industrial" (qi 1) (seeded_random sigC6 7)).1.height := by
  have t := C6_height_from_discrete_subtype_set "industrial" (qi 0) (qi 1) (seeded_random sigC6 7)
  exact ⟨by decide, t.1 (by decide), t.2.1, t.2.2.1, t.2.2.2⟩

/-- C6 (counterexample to the original claim): an industrial warehouse draws
height 5 m, which is not on the 4 m floor grid (it is none of the
`MAX_FLOORS` grid values `k * FLOOR_HEIGHT`); and the structure-library
path's `_choose_footprint` draws its height continuously — here strictly
between 6 m and 7 m — so it lies in no discrete set at all. -/
theorem C6_height_off_floor_grid_counterexample :
    (_get_building_dimensions "industrial" (qd 1 2) (seeded_random sigC6 7)).1.height = qi 5
    ∧ (_get_building_dimensions "industrial" (qd 1 2) (seeded_random sigC6 7)).1.subtype = "warehouse"
    ∧ qi 5 ∉ (List.range MAX_FLOORS).map (fun k => Q.mul (qi (k + 1)) FLOOR_HEIGHT)
    ∧ Q.blt (qi 6)
        (_choose_footprint (qi 10) (qi 20) (qi 10) (qi 20) (qi 4) (qi 12)
          (seeded_random sigC6 8)).1.2.2 = true
    ∧ Q.blt
        (_choose_footprint (qi 10) (qi 20) (qi 10) (qi 20) (qi 4) (qi 12)
          (seeded_random sigC6 8)).1.2.2 (qi 7) = true := by
  exact ⟨by decide, by decide, by decide, by decide, by decide⟩

/-- C9 (amended): unknown zone-type strings do get generic fallbacks in the
two table lookups — `_get_zone_distribution` returns the default
distribution and `_get_building_dimensions` falls into the default branch
(subtype is the zone type itself, 1–3 floors) — but the structure pipeline
skips any zone whose type is not in its explicit whitelist, so such zones
produce no buildings at all. -/
theorem C9_unknown_zone_fallback_and_skip (zt ztb : String) (imp : Q) (rng : RNG)
    (σ : ℤ → ℕ → Q) (zone : Zone) (floor chunk_index chunk_seed : ℤ) (hub : Option String)
    (hzd : zt ∉ knownDistZoneTypes)
    (hzb : pyStrip (pyLower ztb) ∉ knownDimZoneTypes)
    (hzz : pyLower zone.zone_type ∉ ["industrial", "commercial", "mixed_use", "mixed-use"]) :
    _get_zone_distribution zt = ⟨qd 70 100, qd 20 100, qd 5 100, qd 5 100⟩
    ∧ (_get_building_dimensions ztb imp rng).1.subtype = pyStrip (pyLower ztb)
    ∧ (_get_building_dimensions ztb imp rng).1.height ∈ [qi 4, qi 8, qi 12]
    ∧ structuresForZone σ floor chunk_index chunk_seed hub zone = [] := by
  simp only [knownDistZoneTypes, List.mem_cons, List.not_mem_nil, or_false, not_or] at hzd
  simp only [knownDimZoneTypes, List.mem_cons, List.not_mem_nil, or_false, not_or] at hzb
  simp only [List.mem_cons, List.not_mem_nil, or_false, not_or] at hzz
  obtain ⟨hd1, hd2, hd3, hd4, hd5, hd6, hd7⟩ := hzd
  obtain ⟨hb1, hb2, hb3, hb4, hb5, hb6, hb7⟩ := hzb
  obtain ⟨hz1, hz2, hz3, hz4⟩ := hzz
  refine ⟨?_, ?_, ?_, ?_⟩
  · simp [_get_zone_distribution, hd1, hd2, hd3, hd4, hd5, hd6, hd7]
  · have : (_get_building_dimensions ztb imp rng).1.subtype
        = (dimsBase (pyStrip (pyLower ztb)) rng).1.subtype := rfl
    rw [this]
    unfold dimsBase
    rw [if_neg hb3, if_neg hb6, if_neg hb1, if_neg hb2, if_neg (by simp [hb4, hb5]),
      if_neg hb7]
    exact (dimsDefault_height_mem _ rng).2
  · have : (_get_building_dimensions ztb imp rng).1.height
        = (dimsBase (pyStrip (pyLower ztb)) rng).1.height := rfl
    rw [this]
    unfold dimsBase
    rw [if_neg hb3, if_neg hb6, if_neg hb1, if_neg hb2, if_neg (by simp [hb4, hb5]),
      if_neg hb7]
    exact (dimsDefault_height_mem _ rng).1
  · unfold structuresForZone
    by_cases hr : pyLower zone.zone_type = "restricted"
    · rw [if_pos hr]
    · rw [if_neg hr, if_pos (by simp [hz1, hz2, hz3, hz4])]

theorem C9_unknown_zone_fallback_and_skip_witness :
    ("spaceport" ∉ knownDistZoneTypes)
    ∧ (pyStrip (pyLower "spaceport") ∉ knownDimZoneTypes)
    ∧ (pyLower zoneC9.zone_type ∉ ["industrial", "commercial", "mixed_use", "mixed-use"])
    ∧ (_get_zone_distribution "spaceport" = ⟨qd 70 100, qd 20 100, qd 5 100, qd 5 100⟩
      ∧ (_get_building_dimensions "spaceport" (qd 1 2) (seeded_random sigC6 7)).1.subtype
        = pyStrip (pyLower "spaceport")
      ∧ (_get_building_dimensions "spaceport" (qd 1 2) (seeded_random sigC6 7)).1.height
        ∈ [qi 4, qi 8, qi 12]
      ∧ structuresForZone sigC3 0 0 0 none zoneC9 = []) :=
  ⟨by decide, by decide, by decide,
    C9_unknown_zone_fallback_and_skip "spaceport" "spaceport" (qd 1 2)
      (seeded_random sigC6 7) sigC3 zoneC9 0 0 0 none (by decide) (by decide) (by decide)⟩

/-- C9 (counterexample to the original claim): with identical geometry,
 importance, seeds and stream, the unknown-typed zone yields no structures
while the industrial-typed zone yields one — so generation of buildings does
not fall back for unknown zone types; it produces nothing. -/
theorem C9_unknown_zone_yields_no_buildings_counterexample :
    (_generate_structures_for_zones sigC3 [zoneC9] 0 0 0 none).length = 0
    ∧ (_generate_structures_for_zones sigC3 [zoneC3] 0 0 0 none).length = 1
    ∧ zoneC9.geo.minX = zoneC3.geo.minX ∧ zoneC9.geo.minY = zoneC3.geo.minY
    ∧ zoneC9.geo.maxX = zoneC3.geo.maxX ∧ zoneC9.geo.maxY = zoneC3.geo.maxY
    ∧ zoneC9.importance = zoneC3.importance := by
  exact ⟨by decide, by decide, rfl, rfl, rfl, rfl, rfl⟩

/-- C3 (amended part): every structure emitted by the grid path has all four
footprint corners strictly inside its zone's polygon — the acceptance test
really is corner containment (though with no inward margin; see the
counterexample). -/
theorem C3_footprint_corners_inside_zone (σ : ℤ → ℕ → Q) (zones : List Zone)
    (floor chunk_index chunk_seed : ℤ) (hub : Option String) (s : ChunkStructure)
    (h : s ∈ _generate_structures_for_zones σ zones floor chunk_index chunk_seed hub) :
    ∃ z ∈ zones, cornersWithin z s := by
  rcases List.mem_flatMap.mp h with ⟨z, hz, hs⟩
  refine ⟨z, hz, ?_⟩
  unfold structuresForZone at hs
  dsimp only at hs
  split at hs
  · simp at hs
  · split at hs
    · simp at hs
    · split at hs
      · simp at hs
      · split at hs
        · simp at hs
        · rcases List.mem_filterMap.mp hs with ⟨cell, _hcell, heq⟩
          split at heq
          · try dsimp only at heq
            split at heq
            · rename_i hall
              injection heq with heq'
              subst heq'
              simp only [Bool.and_eq_true] at hall
              exact ⟨hall.1.1.1, hall.1.1.2, hall.1.2, hall.2⟩
            · simp at heq
          · simp at heq

theorem C3_footprint_corners_inside_zone_witness :
    ∃ z ∈ [zoneC3],
      cornersWithin z
        ((_generate_structures_for_zones sigC3 [zoneC3] 0 0 0 none).get ⟨0, by decide⟩) :=
  C3_footprint_corners_inside_zone sigC3 [zoneC3] 0 0 0 none _
    (List.get_mem (_generate_structures_for_zones sigC3 [zoneC3] 0 0 0 none) _ _)

/-- C3 (counterexample to the original claim): the grid path accepts this
structure although its south corners are only 0.05 m from the zone boundary
— there is no inward safety margin of 0.1 m (or any other fixed size) in
the containment test. -/
theorem C3_no_inward_margin_counterexample :
    ((_generate_structures_for_zones sigC3 [zoneC3] 0 0 0 none).any (fun s =>
      Q.ble (qi 0) (Q.sub (Q.sub s.posy (Q.div s.depth (qi 2))) zoneC3.geo.minY)
      && Q.blt (Q.sub (Q.sub s.posy (Q.div s.depth (qi 2))) zoneC3.geo.minY) (qd 1 10))) = true := by
  decide

/-- C10 (counterexample to the original claim): two distinct building cells,
in two zones mirrored across the ring centreline, truncate to the same index
pair `(0, 0)` (since `int(-25 / 50) = int(25 / 50) = 0`), so the chunk's
structure list carries a duplicated id and a duplicated building seed. -/
theorem C10_duplicate_structure_id_counterexample :
    ((_generate_structures_for_zones sigC10 [zoneC10N, zoneC10S] 0 0 0 none).map
      (fun s => (s.id, s.procedural_seed)))
    = [("proc_0_0_0_0", 360982090), ("proc_0_0_0_0", 360982090)] := by
  decide

theorem foldl_cells_map_idx {σt : Type} (F : GridCell → ℤ × ℤ) (c : ℕ × ℕ → Bool)
    (hfun : ℕ × ℕ → σt → GridCell × σt) (ψ : ℕ × ℕ → ℤ × ℤ)
    (hF : ∀ p r, F (hfun p r).1 = ψ p) :
    ∀ (l : List (ℕ × ℕ)) (acc : List GridCell × σt),
    ((l.foldl (fun acc p =>
        if c p then (acc.1 ++ [(hfun p acc.2).1], (hfun p acc.2).2) else acc) acc).1).map F
      = acc.1.map F ++ (l.filter c).map ψ := by
  intro l
  induction l with
  | nil => intro acc; simp
  | cons p t ih =>
    intro acc
    rw [List.foldl_cons, List.filter_cons]
    by_cases hc : c p
    · rw [if_pos hc, if_pos hc, ih]
      simp [hF, List.append_assoc]
    · rw [if_neg hc, if_neg hc, ih]

theorem tdiv_centre (m : ℤ) (i : ℕ) (hm : 0 ≤ m) :
    Int.tdiv (m * 50 + 50 * (i : ℤ) + 25) 50 = m + i := by
  rw [Int.tdiv_eq_ediv (by omega) (by omega)]
  omega

theorem gridCellAt_idx (σ : ℤ → ℕ → Q) (geo : ZoneGeom) (zt : String) (cs : ℤ)
    (m n : ℤ) (hm : 0 ≤ m) (hn : 0 ≤ n) (p : ℕ × ℕ) (r : RNG) :
    (pyInt (Q.div (gridCellAt σ geo zt cs (m * 50) (n * 50) p r).1.posx (qi 50)),
      pyInt (Q.div (gridCellAt σ geo zt cs (m * 50) (n * 50) p r).1.posy (qi 50)))
    = (m + p.1, n + p.2) := by
  unfold gridCellAt
  dsimp only
  unfold Q.div pyInt qi
  dsimp only
  rw [if_neg (by omega), if_neg (by omega)]
  dsimp only
  rw [mul_one, mul_one, one_mul, tdiv_centre m p.1 hm, tdiv_centre n p.2 hn]

theorem rangePairs_nodup (a b : ℕ) :
    ((List.range a).flatMap (fun i => (List.range b).map (fun j => (i, j)))).Nodup := by
  apply List.nodup_flatMap.2
  constructor
  · intro i _
    exact (List.nodup_range b).map (fun j j' h => congrArg Prod.snd h)
  · apply List.Pairwise.imp ?_ (List.nodup_range a)
    intro i i' hne x hx hx'
    rcases List.mem_map.mp hx with ⟨j, _, rfl⟩
    rcases List.mem_map.mp hx' with ⟨j', _, hEq⟩
    exact hne (congrArg Prod.fst hEq.symm)

/-- C10 (amended): for a zone lying in the non-negative quadrant of the
grid (grid origin at non-negative cell indices), the derived integer index
pairs `(int(pos_x / 50), int(pos_y / 50))` of the emitted grid cells are
pairwise distinct — each cell gets its own index pair, from which the
structure id string and the building-seed derivation inputs are built.
(Without the quadrant restriction the truncation toward zero collapses the
cells on either side of an axis; see the counterexample.) -/
theorem C10_grid_cell_index_pairs_distinct (σ : ℤ → ℕ → Q) (geo : ZoneGeom)
    (zt : String) (imp : Q) (cs : ℤ)
    (hx : 0 ≤ Q.floor (Q.div geo.minX (qi 50)))
    (hy : 0 ≤ Q.floor (Q.div geo.minY (qi 50))) :
    ((generate_city_grid σ geo zt imp cs).map
      (fun cell => (pyInt (Q.div cell.posx (qi 50)), pyInt (Q.div cell.posy (qi 50))))).Nodup := by
  unfold generate_city_grid
  dsimp only
  rw [foldl_cells_map_idx
    (fun cell => (pyInt (Q.div cell.posx (qi 50)), pyInt (Q.div cell.posy (qi 50))))
    (fun p => geo.intersectsCell (qi (Q.floor (Q.div geo.minX (qi 50)) * 50 + 50 * (p.1 : ℤ)))
      (qi (Q.floor (Q.div geo.minY (qi 50)) * 50 + 50 * (p.2 : ℤ))))
    (gridCellAt σ geo zt cs (Q.floor (Q.div geo.minX (qi 50)) * 50)
      (Q.floor (Q.div geo.minY (qi 50)) * 50))
    (fun p => (Q.floor (Q.div geo.minX (qi 50)) + p.1, Q.floor (Q.div geo.minY (qi 50)) + p.2))
    (fun p r => gridCellAt_idx σ geo zt cs _ _ hx hy p r)]
  rw [List.map_nil, List.nil_append]
  apply List.Nodup.map
  · intro p q hpq
    simp only [Prod.mk.injEq] at hpq
    have h1 : p.1 = q.1 := by omega
    have h2 : p.2 = q.2 := by omega
    exact Prod.ext h1 h2
  · exact (rangePairs_nodup _ _).filter _

theorem C10_grid_cell_index_pairs_distinct_witness :
    (0 ≤ Q.floor (Q.div (rectGeom (qi 0) (qi 5) (qi 100) (qi 140)).minX (qi 50)))
    ∧ (0 ≤ Q.floor (Q.div (rectGeom (qi 0) (qi 5) (qi 100) (qi 140)).minY (qi 50)))
    ∧ ((generate_city_grid sigC10 (rectGeom (qi 0) (qi 5) (qi 100) (qi 140)) "industrial"
        (qd 1 2) 0).map
      (fun cell => (pyInt (Q.div cell.posx (qi 50)), pyInt (Q.div cell.posy (qi 50))))).Nodup :=
  ⟨by decide, by decide,
    C10_grid_cell_index_pairs_distinct sigC10 (rectGeom (qi 0) (qi 5) (qi 100) (qi 140))
      "industrial" (qd 1 2) 0 (by decide) (by decide)⟩

theorem mainDoors_map_append (ds : Doors) (f : String) (d : Door)
    (hd : (d.dtype == "main") = false) :
    mainDoors (ds.map (fun p => if p.1 == f then (p.1, p.2 ++ [d]) else p)) = mainDoors ds := by
  induction ds with
  | nil => rfl
  | cons p t ih =>
    simp only [List.map_cons]
    unfold mainDoors
    simp only [List.flatMap_cons]
    unfold mainDoors at ih
    rw [ih]
    by_cases hp : (p.1 == f) = true
    · rw [if_pos hp]
      simp [List.filter_append, hd]
    · rw [if_neg hp]

theorem mainDoors_map_set (ds : Doors) (f : String) (d : Door)
    (hd : (d.dtype == "main") = false)
    (hnf : ∀ q ∈ mainDoors ds, q.1 ≠ f) :
    mainDoors (ds.map (fun p => if p.1 == f then (p.1, [d]) else p)) = mainDoors ds := by
  induction ds with
  | nil => rfl
  | cons p t ih =>
    have hnf' : ∀ q ∈ mainDoors t, q.1 ≠ f := by
      intro q hq
      apply hnf q
      unfold mainDoors
      simp only [List.flatMap_cons]
      exact List.mem_append_right _ hq
    simp only [List.map_cons]
    unfold mainDoors
    simp only [List.flatMap_cons]
    unfold mainDoors at ih
    rw [ih hnf']
    by_cases hp : (p.1 == f) = true
    · rw [if_pos hp]
      have hmain : p.2.filter (fun dd => dd.dtype == "main") = [] := by
        rw [List.eq_nil_iff_forall_not_mem]
        intro dd hdd
        have hmem : (p.1, dd) ∈ mainDoors (p :: t) := by
          unfold mainDoors
          simp only [List.flatMap_cons]
          exact List.mem_append_left _ (List.mem_map_of_mem _ hdd)
        exact hnf _ hmem (by simpa using hp)
      simp [List.filter_cons, hd, hmain]
    · rw [if_neg hp]

theorem mainDoors_setDoor (ds : Doors) (f : String) (d : Door)
    (hd : (d.dtype == "main") = false)
    (hnf : ∀ q ∈ mainDoors ds, q.1 ≠ f) :
    mainDoors (setDoor ds f d) = mainDoors ds := by
  unfold setDoor
  split
  · exact mainDoors_map_set ds f d hd hnf
  · unfold mainDoors
    rw [List.flatMap_append]
    simp [hd]

theorem mainDoors_appendDoor (ds : Doors) (f : String) (d : Door)
    (hd : (d.dtype == "main") = false) :
    mainDoors (appendDoor ds f d) = mainDoors ds := by
  unfold appendDoor
  split
  · exact mainDoors_map_append ds f d hd
  · unfold mainDoors
    rw [List.flatMap_append]
    simp [hd]

theorem mainDoors_single (f₀ : String) (d : Door) (hd : (d.dtype == "main") = true) :
    mainDoors [(f₀, [d])] = [(f₀, d)] := by
  unfold mainDoors
  simp [List.filter_cons, hd]

theorem mainDoors_mem_hasFacade (ds : Doors) (f : String) (dm : Door)
    (h : (f, dm) ∈ mainDoors ds) : doorsHasFacade ds f = true := by
  unfold mainDoors at h
  rcases List.mem_flatMap.mp h with ⟨p, hp, hq⟩
  rcases List.mem_map.mp hq with ⟨dd, _, hEq⟩
  have hf : p.1 = f := congrArg Prod.fst hEq
  unfold doorsHasFacade
  apply List.any_eq_true.mpr
  exact ⟨p, hp, by simp [hf]⟩

theorem placeSecondary_mains (windows : List Window) (w dpt trim dw dh dyp : Q)
    (f dt : String) (acc : Doors × RNG) (f₀ : String) (dm : Door)
    (hf : f ≠ f₀) (hdt : (dt == "main") = false)
    (hm : mainDoors acc.1 = [(f₀, dm)]) :
    mainDoors (placeSecondary windows w dpt trim dw dh dyp f dt acc).1 = [(f₀, dm)] := by
  unfold placeSecondary
  dsimp only
  rw [mainDoors_setDoor _ _ _ hdt ?_, hm]
  intro q hq
  rw [hm] at hq
  simp only [List.mem_singleton] at hq
  rw [hq]
  exact fun hEq => hf hEq.symm

theorem foldl_secondary_mains (windows : List Window) (w dpt trim dw dh dyp : Q)
    (f₀ : String) (dm : Door) :
    ∀ (l : List String) (acc : Doors × RNG), (∀ f ∈ l, f ≠ f₀) →
    mainDoors acc.1 = [(f₀, dm)] →
    mainDoors ((l.foldl (fun acc f =>
      placeSecondary windows w dpt trim dw dh dyp f "secondary" acc) acc).1) = [(f₀, dm)] := by
  intro l
  induction l with
  | nil => intro acc _ hm; exact hm
  | cons f t ih =>
    intro acc hl hm
    rw [List.foldl_cons]
    exact ih _ (fun x hx => hl x (by simp [hx]))
      (placeSecondary_mains windows w dpt trim dw dh dyp f "secondary" acc f₀ dm
        (hl f (by simp)) (by decide) hm)

theorem foldl_retail_mains (windows : List Window) (w dpt trim dw dh dyp : Q)
    (f₀ : String) (dm : Door) :
    ∀ (l : List String) (acc : Doors × RNG),
    mainDoors acc.1 = [(f₀, dm)] →
    mainDoors ((l.foldl (fun acc f =>
      if f = f₀ then acc
      else placeSecondary windows w dpt trim dw dh dyp f "secondary" acc) acc).1) = [(f₀, dm)] := by
  intro l
  induction l with
  | nil => intro acc hm; exact hm
  | cons f t ih =>
    intro acc hm
    rw [List.foldl_cons]
    by_cases hf : f = f₀
    · rw [if_pos hf]; exact ih _ hm
    · rw [if_neg hf]
      exact ih _ (placeSecondary_mains windows w dpt trim dw dh dyp f "secondary" acc f₀ dm
        hf (by decide) hm)

theorem other_facades_ne_nil (f₀ : String) :
    ALL_FACADES.filter (fun f => f != f₀) ≠ [] := by
  by_cases h : f₀ = "front"
  · subst h; decide
  · apply List.ne_nil_of_mem
    show "front" ∈ ALL_FACADES.filter (fun f => f != f₀)
    apply List.mem_filter.mpr
    refine ⟨by simp [ALL_FACADES], ?_⟩
    simpa using fun hEq => h hEq.symm

theorem foldl_wh_mains (windows : List Window) (width depth trim dw dh dyp : Q)
    (f₀ : String) (dm : Door) :
    ∀ (l : List String) (acc : Doors × RNG),
    mainDoors acc.1 = [(f₀, dm)] →
    mainDoors ((l.foldl (fun acc f =>
      if doorsHasFacade acc.1 f then acc
      else
        (setDoor acc.1 f
          ⟨(find_door_position windows f (facadeWidthOf f width depth) trim dw dh dyp acc.2).1,
            dyp, dw, dh, if f = f₀ then "main" else "secondary"⟩,
          (find_door_position windows f (facadeWidthOf f width depth) trim dw dh dyp acc.2).2))
      acc).1) = [(f₀, dm)] := by
  intro l
  induction l with
  | nil => intro acc hm; exact hm
  | cons f t ih =>
    intro acc hm
    rw [List.foldl_cons]
    by_cases hhf : doorsHasFacade acc.1 f = true
    · rw [if_pos hhf]; exact ih _ hm
    · rw [if_neg hhf]
      by_cases hf : f = f₀
      · exfalso
        apply hhf
        rw [hf]
        exact mainDoors_mem_hasFacade acc.1 f₀ dm (by rw [hm]; exact List.mem_singleton_self _)
      · apply ih
        dsimp only
        rw [mainDoors_setDoor _ _ _ ?_ ?_, hm]
        · show ((if f = f₀ then "main" else "secondary") == "main") = false
          rw [if_neg hf]
          decide
        · intro q hq
          rw [hm] at hq
          simp only [List.mem_singleton] at hq
          rw [hq]
          exact fun hEq => hf hEq.symm

theorem choiceStr_filter_ne (f₀ : String) (l : List String) (r : RNG)
    (hne : l.filter (fun f => f != f₀) ≠ []) :
    (RNG.choiceStr (l.filter (fun f => f != f₀)) r).1 ≠ f₀ := by
  have h2 := RNG.choiceStr_mem _ r hne
  have h3 := List.mem_filter.mp h2
  simpa using h3.2

theorem generate_doors_mains (width depth height : Q) (seed : ℤ) (st f₀ : String)
    (rng : RNG) (windows : List Window) (trim : Q) :
    ∃ dm : Door,
      mainDoors (_generate_doors width depth height seed st f₀ rng windows trim).1
        = [(f₀, dm)]
      ∧ dm.dtype = "main" := by
  unfold _generate_doors
  dsimp only
  split
  · exact ⟨_, foldl_retail_mains _ _ _ _ _ _ _ _ _ _ _ (mainDoors_single _ _ rfl), rfl⟩
  · split
    · exact ⟨_, foldl_secondary_mains _ _ _ _ _ _ _ _ _ _ _
        (fun f hf => by
          have h1 := List.take_subset _ _ hf
          have h2 := RNG.shuffle_subset _ _ f h1
          have h3 := List.mem_filter.mp h2
          simpa using h3.2)
        (mainDoors_single _ _ rfl), rfl⟩
    · split
      · split
        · exact ⟨_, placeSecondary_mains _ _ _ _ _ _ _ _ _ _ _ _
            (choiceStr_filter_ne f₀ ALL_FACADES _ (other_facades_ne_nil f₀))
            (by decide) (mainDoors_single _ _ rfl), rfl⟩
        · exact ⟨_, mainDoors_single _ _ rfl, rfl⟩
      · split
        · split
          · exact ⟨_, placeSecondary_mains _ _ _ _ _ _ _ _ _ _ _ _
              (choiceStr_filter_ne f₀ ALL_FACADES _ (other_facades_ne_nil f₀))
              (by decide) (mainDoors_single _ _ rfl), rfl⟩
          · exact ⟨_, mainDoors_single _ _ rfl, rfl⟩
        · split
          · exact ⟨_, foldl_wh_mains _ _ _ _ _ _ _ _ _ _ _ (mainDoors_single _ _ rfl), rfl⟩
          · exact ⟨_, mainDoors_single _ _ rfl, rfl⟩

theorem foldl_preserve {α β : Type} (P : β → Prop) (step : β → α → β)
    (hstep : ∀ acc a, P acc → P (step acc a)) :
    ∀ (l : List α) (init : β), P init → P (l.foldl step init) := by
  intro l
  induction l with
  | nil => intro init h; exact h
  | cons a t ih =>
    intro init h
    rw [List.foldl_cons]
    exact ih _ (hstep init a h)

theorem addUtility_not_main (mode : ℕ) (windows : List Window) (facade : String)
    (gx gw trim fwc udW udH udY : Q) (ut : String) (uts : List GarageDoor)
    (hut : (ut == "main") = false)
    (h : ∀ ud ∈ uts, (ud.gtype == "main") = false) :
    ∀ ud ∈ addUtility mode windows facade gx gw trim fwc udW udH udY ut uts,
      (ud.gtype == "main") = false := by
  intro ud hud
  unfold addUtility at hud
  split at hud
  · exact h ud hud
  · dsimp only at hud
    split at hud
    · rcases List.mem_append.mp hud with h1 | h1
      · exact h ud h1
      · simp only [List.mem_singleton] at h1
        rw [h1]
        exact hut
    · split at hud
      · exact h ud hud
      · rcases List.mem_append.mp hud with h1 | h1
        · exact h ud h1
        · simp only [List.mem_singleton] at h1
          rw [h1]
          exact hut

theorem placeGarageRow_not_main (windows : List Window) (doors : Doors) (facade : String)
    (fw trim gw gh gy : Q) (gtype : String) (so st : Q) (count : ℕ) (um : ℕ)
    (fwc udW udH udY : Q) (ut : String) (hut : (ut == "main") = false)
    (init : List GarageDoor × List GarageDoor)
    (hinit : ∀ ud ∈ init.2, (ud.gtype == "main") = false) :
    ∀ ud ∈ (placeGarageRow windows doors facade fw trim gw gh gy gtype so st count um
      fwc udW udH udY ut init).2, (ud.gtype == "main") = false := by
  unfold placeGarageRow
  refine foldl_preserve (fun acc => ∀ ud ∈ acc.2, (ud.gtype == "main") = false) _ ?_ _ init hinit
  intro acc i hacc
  dsimp only
  split
  · exact hacc
  · exact addUtility_not_main _ _ _ _ _ _ _ _ _ _ _ _ hut hacc

theorem placeGarageFacade_not_main (windows : List Window) (doors : Doors) (facade : String)
    (fw trim gw gh gy : Q) (gtype : String) (count : ℕ) (tfs : Q) (um : ℕ)
    (fwc udW udH udY : Q) (ut : String) (hut : (ut == "main") = false)
    (acc : List GarageDoor × List GarageDoor)
    (hacc : ∀ ud ∈ acc.2, (ud.gtype == "main") = false) :
    ∀ ud ∈ (placeGarageFacade windows doors facade fw trim gw gh gy gtype count tfs um
      fwc udW udH udY ut acc).2, (ud.gtype == "main") = false := by
  unfold placeGarageFacade
  dsimp only
  split
  · exact placeGarageRow_not_main _ _ _ _ _ _ _ _ _ _ _ _ _ _ _ _ _ _ hut _ hacc
  · exact placeGarageRow_not_main _ _ _ _ _ _ _ _ _ _ _ _ _ _ _ _ _ _ hut _ hacc

theorem ite_preserve {c : Prop} [Decidable c] {β : Type} (P : β → Prop) (a b : β)
    (ha : P a) (hb : P b) : P (if c then a else b) := by
  split
  · exact ha
  · exact hb

theorem garage_utils_not_main (width depth height : Q) (seed : ℤ) (st : String)
    (rng : RNG) (trim : Q) (windows : List Window) (doors : Doors) :
    ∀ ud ∈ ((_generate_garage_doors width depth height seed st rng trim windows doors).1.2),
      (ud.gtype == "main") = false := by
  unfold _generate_garage_doors
  dsimp only
  split
  · refine foldl_preserve
      (fun acc : List GarageDoor × List GarageDoor =>
        ∀ ud ∈ acc.2, (ud.gtype == "main") = false) _ ?_ _ _ ?_
    · intro acc f hacc
      refine placeGarageFacade_not_main _ _ _ _ _ _ _ _ _ _ _ _ _ _ _ _ _ ?_ _ hacc
      split <;> decide
    · exact fun ud h => absurd h (List.not_mem_nil ud)
  · split
    · refine ite_preserve
        (fun pr : (List GarageDoor × List GarageDoor) × RNG =>
          ∀ ud ∈ pr.1.2, (ud.gtype == "main") = false) _ _ ?_ ?_
      · refine foldl_preserve
          (fun acc : List GarageDoor × List GarageDoor =>
            ∀ ud ∈ acc.2, (ud.gtype == "main") = false) _ ?_ _ _ ?_
        · intro acc f hacc
          exact placeGarageFacade_not_main _ _ _ _ _ _ _ _ _ _ _ _ _ _ _ _ _ (by decide) _ hacc
        · exact fun ud h => absurd h (List.not_mem_nil ud)
      · exact fun ud h => absurd h (List.not_mem_nil ud)
    · split
      · refine ite_preserve
          (fun pr : (List GarageDoor × List GarageDoor) × RNG =>
            ∀ ud ∈ pr.1.2, (ud.gtype == "main") = false) _ _ ?_ ?_
        · exact placeGarageFacade_not_main _ _ _ _ _ _ _ _ _ _ _ _ _ _ _ _ _ (by decide) _
            (fun ud h => absurd h (List.not_mem_nil ud))
        · exact fun ud h => absurd h (List.not_mem_nil ud)
      · exact fun ud h => absurd h (List.not_mem_nil ud)

theorem mergeUtility_mains (f₀ : String) (dm : Door) :
    ∀ (uts : List GarageDoor) (ds : Doors),
    mainDoors ds = [(f₀, dm)] →
    (∀ ud ∈ uts, (ud.gtype == "main") = false) →
    mainDoors (mergeUtilityDoors ds uts) = [(f₀, dm)] := by
  intro uts
  induction uts with
  | nil => intro ds hm _; exact hm
  | cons u t ih =>
    intro ds hm hu
    unfold mergeUtilityDoors
    rw [List.foldl_cons]
    have step : mainDoors (appendDoor ds u.facade ⟨u.x, u.y, u.width, u.height, u.gtype⟩)
        = [(f₀, dm)] := by
      rw [mainDoors_appendDoor _ _ _ (hu u (by simp)), hm]
    have := ih (appendDoor ds u.facade ⟨u.x, u.y, u.width, u.height, u.gtype⟩) step
      (fun x hx => hu x (by simp [hx]))
    unfold mergeUtilityDoors at this
    exact this

/-- C8: every building produced by `generate_building` carries exactly one
door of type `"main"`, and it sits on whichever of the front
(`y + depth/2`) and back (`y - depth/2`) facades is nearer the ring
centreline `y = 0`, front on ties; the main door is always present because
`find_door_position` returns a position on every control path. -/
theorem C8_unique_main_door_on_nearer_facade (σ : ℤ → ℕ → Q) (position : Q × Q)
    (zone_type : String) (zone_importance : Q) (building_seed floor : ℤ)
    (hub_name building_subtype_override : Option String) :
    ∃ dm : Door,
      mainDoors (generate_building σ position zone_type zone_importance building_seed
        floor hub_name building_subtype_override).doors
      = [(expectedMainFacade position.2
            (generate_building σ position zone_type zone_importance building_seed
              floor hub_name building_subtype_override).depth, dm)]
      ∧ dm.dtype = "main" := by
  unfold generate_building expectedMainFacade
  dsimp only
  rcases generate_doors_mains _ _ _ building_seed _ _ _ _ (qd 1 10) with ⟨dm, hdm, hdt⟩
  exact ⟨dm, mergeUtility_mains _ dm _ _ hdm
    (garage_utils_not_main _ _ _ building_seed _ _ _ _ _), hdt⟩

end EarthRing
